import Mathlib

/-!
Verification of the FreeFire-Api Flask gateway (src/app.py).

The file embeds the three endpoint handlers of `app.py` as pure Lean
functions.  The handlers are parameterised by:
  * the account registry (`accounts = load_accounts()`), modelled as an
    association list from region code to a credential dictionary;
  * the outcome of each of the three external calls a request can make
    (`get_garena_token`, `get_major_login`, and the endpoint's data fetch),
    each modelled as `Except PyExc v`: either a returned value or a raised
    Python exception.
Each handler returns the HTTP response (JSON body and status code) together
with the trace of external calls it actually performed, in order.

Domain restrictions of the embedding (documented, not hidden):
  * strings are treated at the ASCII level: `str.upper`/`str.lower`/`str.strip`
    are `String.toUpper`/`String.toLower`/`String.trim`, `str.isdigit` is
    "non-empty and every char is an ASCII decimal digit", and `int(...)`
    parsing accepts ASCII digits (with Python's underscore rule and sign);
  * JSON serialisation (`json.dumps` / `jsonify`) is not modelled: response
    bodies are kept as JSON values;
  * response headers are not modelled (every response in the source carries
    the same content type).
-/

/-- JSON-like values: the payloads returned by the external calls and the
response bodies built by the handlers. -/
inductive J where
  | null : J
  | jbool : Bool → J
  | jnum : Int → J
  | jstr : String → J
  | jarr : List J → J
  | jobj : List (String × J) → J

/-- Python truthiness of a JSON value (`if not x`): None, False, 0, empty
string, empty list and empty dict are falsy. -/
def J.truthy : J → Bool
  | .null => false
  | .jbool b => b
  | .jnum n => n != 0
  | .jstr s => s ≠ ""
  | .jarr xs => !xs.isEmpty
  | .jobj fs => !fs.isEmpty

/-- A Python dictionary with string keys and JSON values. -/
abbrev Dict := List (String × J)

/-- The account registry: region code → credential dictionary.  In the source
this is `accounts = load_accounts()`, loaded once at startup. -/
abbrev Registry := List (String × Dict)

/-- The Python exceptions that can flow through the handlers. -/
inductive PyExc where
  | valueError : String → PyExc
  | connectionError : String → PyExc
  | keyError : String → PyExc
  | nameError : String → PyExc
  | otherExc : String → String → PyExc
deriving DecidableEq, Repr

/-- Python `str(e)` for an exception: a `KeyError` renders as the missing key
wrapped in single quotes, the others render their message. -/
def PyExc.str : PyExc → String
  | .valueError m => m
  | .connectionError m => m
  | .keyError k => "'" ++ k ++ "'"
  | .nameError m => m
  | .otherExc _ m => m

/-- The class expression of an `except` clause.  `cUnbound n` models a clause
whose class name `n` is not bound in the handler's scope (as `ProtobufError`
and `APIError` are not in app.py): evaluating the clause raises `NameError`. -/
inductive ClsExpr where
  | cValueError : ClsExpr
  | cConnectionError : ClsExpr
  | cKeyError : ClsExpr
  | cException : ClsExpr
  | cUnbound : String → ClsExpr
deriving DecidableEq, Repr

/-- Whether an exception instance matches a (bound) exception class. -/
def clsMatches : ClsExpr → PyExc → Bool
  | .cValueError, .valueError _ => true
  | .cConnectionError, .connectionError _ => true
  | .cKeyError, .keyError _ => true
  | .cException, _ => true
  | _, _ => false

/-- An HTTP response: JSON body plus status code. -/
structure Resp where
  body : J
  status : Nat

/-- Python `except` clause matching: clauses are tried in order; evaluating a
clause whose class name is unbound raises a `NameError` that replaces the
original exception and escapes the whole `try` statement; if no clause
matches, the original exception propagates. -/
def handleChain : List (ClsExpr × (PyExc → Resp)) → PyExc → Except PyExc Resp
  | [], e => .error e
  | (c, f) :: rest, e =>
    match c with
    | .cUnbound n => .error (.nameError ("name '" ++ n ++ "' is not defined"))
    | c => if clsMatches c e then .ok (f e) else handleChain rest e

/-- The external calls a request can perform, in the order the pipeline makes
them: stage-1 account token, stage-2 session exchange, stage-3 data fetch. -/
inductive ExtCall where
  | stage1 : ExtCall
  | stage2 : ExtCall
  | fetch : ExtCall
deriving DecidableEq, Repr

abbrev Trace := List ExtCall

/-- Python `d[k]` on a dictionary: the value, or a raised `KeyError`. -/
def dictGetE (d : Dict) (k : String) : Except PyExc J :=
  match d.lookup k with
  | some v => .ok v
  | none => .error (.keyError k)

/-- Python `d[k]` where `d` may be `None` (subscripting `None` raises
`TypeError`; unreachable after the handlers' truthiness checks). -/
def optGetE (o : Option Dict) (k : String) : Except PyExc J :=
  match o with
  | some d => dictGetE d k
  | none => .error (.otherExc "TypeError" "'NoneType' object is not subscriptable")

/-- Python truthiness of an optional dictionary (`if not d`): `None` and the
empty dict are falsy. -/
def optDictTruthy : Option Dict → Bool
  | none => false
  | some d => !d.isEmpty

/-- Python `k in d` for an optional dictionary that is known truthy. -/
def optDictHas (o : Option Dict) (k : String) : Bool :=
  match o with
  | some d => (d.lookup k).isSome
  | none => false

/-- Python `s.upper()` restricted to ASCII. -/
def pyUpper (s : String) : String :=
  String.mk (s.data.map Char.toUpper)

/-- Python `s.lower()` restricted to ASCII. -/
def pyLower (s : String) : String :=
  String.mk (s.data.map Char.toLower)

/-- Whitespace characters stripped by Python `s.strip()`. -/
def pyIsSpace (c : Char) : Bool :=
  c = ' ' || c = '\t' || c = '\n' || c = '\r' || c = '\x0b' || c = '\x0c'

/-- Python `s.strip()`: leading and trailing whitespace removed. -/
def pyStrip (s : String) : String :=
  String.mk (((s.data.dropWhile pyIsSpace).reverse.dropWhile pyIsSpace).reverse)

/-- Python `s.isdigit()` restricted to ASCII: non-empty and all chars are
decimal digits. -/
def pyIsDigit (s : String) : Bool :=
  !s.data.isEmpty && s.data.all Char.isDigit

/-- Accumulating loop of `pyIntDigits`: remaining digits optionally separated
by single underscores. -/
def pyIntGo (acc : Nat) : List Char → Option Nat
  | [] => some acc
  | '_' :: c :: cs =>
      if c.isDigit then pyIntGo (acc * 10 + (c.toNat - 48)) cs else none
  | c :: cs => if c.isDigit then pyIntGo (acc * 10 + (c.toNat - 48)) cs else none

/-- Digit run of Python `int(...)`: digits optionally separated by single
underscores (`1_0` parses, `_1`, `1_`, `1__0` do not). -/
def pyIntDigits : List Char → Option Nat
  | [] => none
  | c :: cs => if c.isDigit then pyIntGo (c.toNat - 48) cs else none

/-- Python `int(s)` on a string (ASCII): surrounding whitespace stripped,
optional sign, then an underscore-separated digit run; `none` models the
raised `ValueError`. -/
def pyInt? (s : String) : Option Int :=
  match (pyStrip s).data with
  | '+' :: rest => (pyIntDigits rest).map Int.ofNat
  | '-' :: rest => (pyIntDigits rest).map (fun n => -(n : Int))
  | rest => (pyIntDigits rest).map Int.ofNat

/-- Python `str(list(accounts.keys()))` for plain region codes:
`['IND', 'BR']`. -/
def pyStrList (xs : List String) : String :=
  "[" ++ String.intercalate ", " (xs.map (fun s => "'" ++ s ++ "'")) ++ "]"

/-- Whether `needle` occurs as a contiguous sublist of the second list. -/
def subListOf (needle : List Char) : List Char → Bool
  | [] => needle.isEmpty
  | c :: cs => needle.isPrefixOf (c :: cs) || subListOf needle cs

mutual
/-- Whether the string `needle` occurs as a substring of any string literal
(key or value) inside a JSON value. -/
def J.containsStr (needle : String) : J → Bool
  | .null => false
  | .jbool _ => false
  | .jnum _ => false
  | .jstr s => subListOf needle.data s.data
  | .jarr xs => jListContains needle xs
  | .jobj fs => jFieldsContains needle fs

/-- List helper of `J.containsStr`. -/
def jListContains (needle : String) : List J → Bool
  | [] => false
  | x :: xs => J.containsStr needle x || jListContains needle xs

/-- Field-list helper of `J.containsStr`. -/
def jFieldsContains (needle : String) : List (String × J) → Bool
  | [] => false
  | (k, v) :: fs =>
      subListOf needle.data k.data || J.containsStr needle v ||
        jFieldsContains needle fs
end

/-- Error body of `/get_search_account_by_keyword`: `{"error": msg}`. -/
def searchErr (msg : String) (status : Nat) : Resp :=
  ⟨J.jobj [("error", J.jstr msg)], status⟩

/-- Except chain of `get_search_account_by_keyword` (src/app.py lines 58-61):
`KeyError` → 500 missing configuration, any other exception → 500. -/
def searchChain : List (ClsExpr × (PyExc → Resp)) :=
  [(ClsExpr.cKeyError,
     fun e => searchErr ("Missing configuration: " ++ e.str) 500),
   (ClsExpr.cException,
     fun e => searchErr ("Internal server error: " ++ e.str) 500)]

/-- Search call of `get_search_account_by_keyword` (src/app.py lines 52-56):
the fetched result is returned directly with status 200, with no
empty-result check. -/
def searchFetch (searchRes : Except PyExc J) : Except PyExc Resp × Trace :=
  match searchRes with
  | .error e => (.error e, [.stage1, .stage2, .fetch])
  | .ok results => (.ok ⟨results, 200⟩, [.stage1, .stage2, .fetch])

/-- Body of the `try` block of `get_search_account_by_keyword`
(src/app.py lines 41-56): two-stage auth, then the search call.  Returns
either a response or an uncaught exception, plus the external calls made. -/
def searchTry (creds : Dict) (garenaRes majorRes : Except PyExc (Option Dict))
    (searchRes : Except PyExc J) : Except PyExc Resp × Trace :=
  match dictGetE creds "uid" with
  | .error e => (.error e, [])
  | .ok _ =>
    match dictGetE creds "password" with
    | .error e => (.error e, [])
    | .ok _ =>
      match garenaRes with
      | .error e => (.error e, [.stage1])
      | .ok auth =>
        if !optDictTruthy auth || !optDictHas auth "access_token" then
          (.ok (searchErr "Authentication failed" 401), [.stage1])
        else
          match optGetE auth "open_id" with
          | .error e => (.error e, [.stage1])
          | .ok _ =>
            match majorRes with
            | .error e => (.error e, [.stage1, .stage2])
            | .ok login =>
              if !optDictTruthy login || !optDictHas login "token" then
                (.ok (searchErr "Major login failed" 401), [.stage1, .stage2])
              else
                match optGetE login "serverUrl" with
                | .error e => (.error e, [.stage1, .stage2])
                | .ok _ => searchFetch searchRes

/-- Post-validation part of `get_search_account_by_keyword`: the `try` body
with the handler's `except` chain applied to an escaping exception.  The
fallback branch models an exception escaping the handler entirely and is
unreachable because the chain ends with `except Exception`. -/
def searchRun (creds : Dict) (garenaRes majorRes : Except PyExc (Option Dict))
    (searchRes : Except PyExc J) : Resp × Trace :=
  match searchTry creds garenaRes majorRes searchRes with
  | (.ok resp, tr) => (resp, tr)
  | (.error e, tr) =>
    match handleChain searchChain e with
    | .ok resp => (resp, tr)
    | .error _ => (⟨J.null, 500⟩, tr)

/-- Handler of `/get_search_account_by_keyword` (src/app.py lines 22-61).
Parameters: the registry, the outcomes of the three external calls, and the
raw `server` and `keyword` query parameters. -/
def searchHandler (accounts : Registry)
    (garenaRes majorRes : Except PyExc (Option Dict)) (searchRes : Except PyExc J)
    (serverP keywordP : Option String) : Resp × Trace :=
  let region := pyUpper (serverP.getD "IND")
  let kw := keywordP.getD ""
  if kw = "" then
    (searchErr "Keyword parameter is required" 400, [])
  else if (pyStrip kw).length < 3 then
    (searchErr "Keyword must be at least 3 characters long" 400, [])
  else
    match accounts.lookup region with
    | none => (searchErr ("Invalid server: " ++ region) 400, [])
    | some creds => searchRun creds garenaRes majorRes searchRes

/-- Error body of `/get_player_stats`:
`{"success": false, "error": err, "message": msg}`. -/
def statsErr (err msg : String) (status : Nat) : Resp :=
  ⟨J.jobj [("success", J.jbool false), ("error", J.jstr err),
           ("message", J.jstr msg)], status⟩

/-- Response of the outer `except Exception` of `get_player_stat`
(src/app.py lines 207-213). -/
def statsInternal500 : Resp :=
  statsErr "Internal server error"
    "An unexpected error occurred while processing your request" 500

/-- Except chain of Step 3 of `get_player_stat` (src/app.py lines 176-205).
The `ProtobufError` and `APIError` clauses are written in the source but the
names are never imported or defined, so evaluating either clause raises
`NameError`, which escapes to the outer handler. -/
def statsStep3Chain : List (ClsExpr × (PyExc → Resp)) :=
  [(ClsExpr.cValueError, fun e => statsErr "Invalid request parameters" e.str 400),
   (ClsExpr.cConnectionError, fun e => statsErr "Connection error" e.str 503),
   (ClsExpr.cUnbound "ProtobufError",
      fun e => statsErr "Data processing error" e.str 500),
   (ClsExpr.cUnbound "APIError",
      fun e => statsErr "External API error" e.str 502),
   (ClsExpr.cException,
      fun e => statsErr "Stats retrieval error"
        ("Failed to retrieve player stats: " ++ e.str) 500)]

/-- Success body of `/get_player_stats` (src/app.py lines 165-174). -/
def statsSuccess (v : J) (server u gm mm : String) : Resp :=
  ⟨J.jobj [("success", J.jbool true), ("data", v),
           ("metadata", J.jobj [("server", J.jstr server), ("uid", J.jstr u),
                                ("gamemode", J.jstr gm),
                                ("matchmode", J.jstr mm)])], 200⟩

/-- Step 3 of `get_player_stat` (src/app.py lines 147-205): the data fetch
with its `except` chain; an exception escaping the chain (in particular the
`NameError` from the unbound `ProtobufError` clause) is caught by the outer
`except Exception` (lines 207-213). -/
def statsStep3 (fetchRes : Except PyExc J) (server u gm mm : String) :
    Resp × Trace :=
  match fetchRes with
  | .error e =>
      match handleChain statsStep3Chain e with
      | .ok resp => (resp, [.stage1, .stage2, .fetch])
      | .error _ => (statsInternal500, [.stage1, .stage2, .fetch])
  | .ok v =>
      if !v.truthy then
        (statsErr "No stats data"
          "No player statistics found for the given parameters" 404,
         [.stage1, .stage2, .fetch])
      else
        (statsSuccess v server u gm mm, [.stage1, .stage2, .fetch])

/-- Steps 1-3 of `get_player_stat` (src/app.py lines 111-205): the part after
validation, with the three inner `try` blocks and the outer
`except Exception` applied where an exception escapes. -/
def statsPipeline (creds : Dict)
    (garenaRes majorRes : Except PyExc (Option Dict)) (fetchRes : Except PyExc J)
    (server u gm mm : String) : Resp × Trace :=
  match dictGetE creds "uid" with
  | .error e =>
      (statsErr "Garena authentication error"
        ("Failed to authenticate with Garena: " ++ e.str) 502, [])
  | .ok _ =>
    match dictGetE creds "password" with
    | .error e =>
        (statsErr "Garena authentication error"
          ("Failed to authenticate with Garena: " ++ e.str) 502, [])
    | .ok _ =>
      match garenaRes with
      | .error e =>
          (statsErr "Garena authentication error"
            ("Failed to authenticate with Garena: " ++ e.str) 502, [.stage1])
      | .ok g =>
        if !optDictTruthy g || !optDictHas g "access_token" then
          (statsErr "Garena authentication failed"
            "Failed to obtain Garena access token" 401, [.stage1])
        else
          match optGetE g "open_id" with
          | .error e =>
              (statsErr "Major login error"
                ("Failed to login to Major: " ++ e.str) 502, [.stage1])
          | .ok _ =>
            match majorRes with
            | .error e =>
                (statsErr "Major login error"
                  ("Failed to login to Major: " ++ e.str) 502, [.stage1, .stage2])
            | .ok login =>
              if !optDictTruthy login || !optDictHas login "token" then
                (statsErr "Major login failed"
                  "Failed to obtain Major login token" 401, [.stage1, .stage2])
              else
                match optGetE login "serverUrl" with
                | .error e =>
                    match handleChain statsStep3Chain e with
                    | .ok resp => (resp, [.stage1, .stage2])
                    | .error _ => (statsInternal500, [.stage1, .stage2])
                | .ok _ => statsStep3 fetchRes server u gm mm

/-- Handler of `/get_player_stats` (src/app.py lines 63-213). -/
def statsHandler (accounts : Registry)
    (garenaRes majorRes : Except PyExc (Option Dict)) (fetchRes : Except PyExc J)
    (serverP uidP gamemodeP matchmodeP : Option String) : Resp × Trace :=
  let server := pyUpper (serverP.getD "IND")
  let u := uidP.getD ""
  let gm := pyLower (gamemodeP.getD "br")
  let mm := pyUpper (matchmodeP.getD "CAREER")
  if u = "" then
    (statsErr "Missing required parameter" "UID parameter is required" 400, [])
  else if !pyIsDigit u then
    (statsErr "Invalid UID" "UID must be a numeric value" 400, [])
  else
    match accounts.lookup server with
    | none =>
        (statsErr "Invalid server"
          ("Server '" ++ server ++ "' not found. Available servers: " ++
            pyStrList (accounts.map Prod.fst)) 400, [])
    | some creds =>
      if !(gm = "br" || gm = "cs") then
        (statsErr "Invalid gamemode" "Gamemode must be 'br' or 'cs'" 400, [])
      else if !(mm = "CAREER" || mm = "NORMAL" || mm = "RANKED") then
        (statsErr "Invalid matchmode"
          "Matchmode must be 'CAREER', 'NORMAL', or 'RANKED'" 400, [])
      else
        statsPipeline creds garenaRes majorRes fetchRes server u gm mm

/-- Error body of `/get_player_personal_show`:
`{"status": "error", "error": err, "message": msg, "code": code}`. -/
def showErr (err msg code : String) (status : Nat) : Resp :=
  ⟨J.jobj [("status", J.jstr "error"), ("error", J.jstr err),
           ("message", J.jstr msg), ("code", J.jstr code)], status⟩

/-- Response of the outer `except Exception` of `get_account_info`
(src/app.py lines 359-372). -/
def showInternal500 : Resp :=
  showErr "Internal Server Error"
    "An unexpected error occurred while processing your request."
    "INTERNAL_SERVER_ERROR" 500

/-- Unknown-server body of `/get_player_personal_show`
(src/app.py lines 256-264), with the `available_servers` field. -/
def showServerNotFound (server : String) (keys : List String) : Resp :=
  ⟨J.jobj [("status", J.jstr "error"), ("error", J.jstr "Invalid Server"),
           ("message", J.jstr ("Server '" ++ server ++
             "' not found. Available servers: " ++ pyStrList keys)),
           ("available_servers", J.jarr (keys.map J.jstr)),
           ("code", J.jstr "SERVER_NOT_FOUND")], 400⟩

/-- Step 3 of `get_account_info` (src/app.py lines 337-357): the data fetch;
a raised exception reaches the outer `except Exception`. -/
def showStep3 (fetchRes : Except PyExc J) (uidInt : Int) : Resp × Trace :=
  match fetchRes with
  | .error _ => (showInternal500, [.stage1, .stage2, .fetch])
  | .ok v =>
    if !v.truthy then
      (showErr "Data Not Found"
        ("No player data found for UID: " ++ toString uidInt)
        "PLAYER_DATA_NOT_FOUND" 404, [.stage1, .stage2, .fetch])
    else
      (⟨v, 200⟩, [.stage1, .stage2, .fetch])

/-- Steps 1-3 of `get_account_info` (src/app.py lines 315-357): the auth
stages and the data fetch, with the outer `except Exception` applied where a
call raises. -/
def showPipeline (garenaRes majorRes : Except PyExc (Option Dict))
    (fetchRes : Except PyExc J) (uidInt : Int) : Resp × Trace :=
  match garenaRes with
  | .error _ => (showInternal500, [.stage1])
  | .ok g =>
    if !optDictTruthy g || !optDictHas g "access_token" ||
        !optDictHas g "open_id" then
      (showErr "Authentication Failed"
        "Failed to obtain Garena token. Invalid credentials or service unavailable."
        "GARENA_AUTH_FAILED" 401, [.stage1])
    else
      match majorRes with
      | .error _ => (showInternal500, [.stage1, .stage2])
      | .ok login =>
        if !optDictTruthy login || !optDictHas login "serverUrl" ||
            !optDictHas login "token" then
          (showErr "Login Failed"
            "Failed to perform major login. Service unavailable."
            "MAJOR_LOGIN_FAILED" 401, [.stage1, .stage2])
        else
          showStep3 fetchRes uidInt

/-- Handler of `/get_player_personal_show` (src/app.py lines 215-372). -/
def showHandler (accounts : Registry)
    (garenaRes majorRes : Except PyExc (Option Dict)) (fetchRes : Except PyExc J)
    (serverP uidP galleryP callSignP : Option String) : Resp × Trace :=
  let server := pyUpper (serverP.getD "IND")
  let u := uidP.getD ""
  if u = "" then
    (showErr "Missing UID"
      "Empty 'uid' parameter. Please provide a valid 'uid'." "MISSING_UID" 400, [])
  else
    match pyInt? u with
    | none =>
        (showErr "Invalid UID" "UID must be a valid integer."
          "INVALID_UID_FORMAT" 400, [])
    | some n =>
      if n ≤ 0 then
        (showErr "Invalid UID" "UID must be a positive integer."
          "INVALID_UID_RANGE" 400, [])
      else
        match accounts.lookup server with
        | none => (showServerNotFound server (accounts.map Prod.fst), [])
        | some creds =>
          if !(match galleryP with
               | none => true
               | some s =>
                   pyLower s = "true" || pyLower s = "1" || pyLower s = "yes" ||
                   pyLower s = "false" || pyLower s = "0" || pyLower s = "no") then
            (showErr "Invalid Parameter"
              "need_gallery_info must be a boolean value (true/false, 1/0)."
              "INVALID_GALLERY_PARAM" 400, [])
          else
            match (match callSignP with
                   | none => some (7 : Int)
                   | some s => pyInt? s) with
            | none =>
                (showErr "Invalid Parameter"
                  "call_sign_src must be a valid integer."
                  "INVALID_CALL_SIGN_FORMAT" 400, [])
            | some csi =>
              if csi < 0 then
                (showErr "Invalid Parameter"
                  "call_sign_src must be a non-negative integer."
                  "INVALID_CALL_SIGN_SRC" 400, [])
              else
                if !(creds.lookup "uid").isSome || !(creds.lookup "password").isSome then
                  (showErr "Server Configuration Error"
                    ("Server '" ++ server ++ "' is missing required credentials.")
                    "SERVER_CONFIG_ERROR" 500, [])
                else
                  showPipeline garenaRes majorRes fetchRes n

/-- Accessor used in the theorems: the "error" field of a JSON object body
(`none` when the body is not an object or has no such field). -/
def errField (b : J) : Option J :=
  match b with
  | .jobj fs => fs.lookup "error"
  | _ => none

/-! ### Concrete inputs shared by counterexamples and witnesses -/

/-- Registry with two configured regions, used by the concrete instances. -/
def regW : Registry :=
  [("IND", [("uid", J.jstr "acc-uid"), ("password", J.jstr "acc-pass")]),
   ("BR", [("uid", J.jstr "acc-uid-2"), ("password", J.jstr "acc-pass-2")])]

/-- Complete stage-1 result used by the concrete instances. -/
def gOkW : Except PyExc (Option Dict) :=
  .ok (some [("access_token", J.jstr "tok"), ("open_id", J.jstr "oid")])

/-- Complete stage-2 result used by the concrete instances. -/
def mOkW : Except PyExc (Option Dict) :=
  .ok (some [("token", J.jstr "sess"), ("serverUrl", J.jstr "https://srv")])

/-! ### Helper lemmas -/

/-- A dictionary with a successful lookup is truthy. -/
theorem optDictTruthy_of_lookup {d : Dict} {k : String} {v : J}
    (h : d.lookup k = some v) : optDictTruthy (some d) = true := by
  cases d with
  | nil => simp [List.lookup] at h
  | cons a as => simp [optDictTruthy]

/-- A successful lookup gives membership. -/
theorem optDictHas_of_lookup {d : Dict} {k : String} {v : J}
    (h : d.lookup k = some v) : optDictHas (some d) k = true := by
  simp [optDictHas, h]

/-- A string passing `isdigit` is non-empty. -/
theorem ne_empty_of_pyIsDigit {u : String} (h : pyIsDigit u = true) :
    ¬ u = "" := by
  intro he
  rw [he] at h
  exact absurd h (by decide)

/-- When all five validations of `/get_player_stats` pass, the handler runs
the pipeline on the region's credentials. -/
theorem statsHandler_valid {accounts : Registry}
    {garenaRes majorRes : Except PyExc (Option Dict)} {fetchRes : Except PyExc J}
    {sP uP gmP mmP : Option String} {u : String} {creds : Dict}
    (hu : uP = some u) (hud : pyIsDigit u = true)
    (hs : accounts.lookup (pyUpper (sP.getD "IND")) = some creds)
    (hgm : pyLower (gmP.getD "br") = "br" ∨ pyLower (gmP.getD "br") = "cs")
    (hmm : pyUpper (mmP.getD "CAREER") = "CAREER" ∨
      pyUpper (mmP.getD "CAREER") = "NORMAL" ∨
      pyUpper (mmP.getD "CAREER") = "RANKED") :
    statsHandler accounts garenaRes majorRes fetchRes sP uP gmP mmP =
      statsPipeline creds garenaRes majorRes fetchRes
        (pyUpper (sP.getD "IND")) u (pyLower (gmP.getD "br"))
        (pyUpper (mmP.getD "CAREER")) := by
  subst hu
  have hne := ne_empty_of_pyIsDigit hud
  rcases hgm with h2 | h2 <;> rcases hmm with h3 | h3 | h3 <;>
    simp [statsHandler, hud, hne, hs, h2, h3]

/-- When the credentials exist and both auth stages return complete
dictionaries, the stats pipeline reaches Step 3. -/
theorem statsPipeline_auth {creds g m : Dict}
    {garenaRes majorRes : Except PyExc (Option Dict)} {fetchRes : Except PyExc J}
    {server u gm mm : String} {cu cp ja jo jt js : J}
    (hcu : creds.lookup "uid" = some cu)
    (hcp : creds.lookup "password" = some cp)
    (hg : garenaRes = .ok (some g))
    (hat : g.lookup "access_token" = some ja)
    (hoid : g.lookup "open_id" = some jo)
    (hm : majorRes = .ok (some m))
    (htk : m.lookup "token" = some jt)
    (hsu : m.lookup "serverUrl" = some js) :
    statsPipeline creds garenaRes majorRes fetchRes server u gm mm =
      statsStep3 fetchRes server u gm mm := by
  subst hg hm
  simp [statsPipeline, dictGetE, optGetE, hcu, hcp, hat, hoid, htk, hsu,
    optDictTruthy_of_lookup hat, optDictHas_of_lookup hat,
    optDictTruthy_of_lookup htk, optDictHas_of_lookup htk]

/-- When all validations of `/get_player_personal_show` pass, the handler
runs the pipeline on the parsed uid. -/
theorem showHandler_valid {accounts : Registry}
    {garenaRes majorRes : Except PyExc (Option Dict)} {fetchRes : Except PyExc J}
    {sP uP galP csP : Option String} {u : String} {n csi : Int}
    {creds : Dict} {cu cp : J}
    (hu : uP = some u) (hu0 : ¬ u = "")
    (hn : pyInt? u = some n) (hpos : 0 < n)
    (hs : accounts.lookup (pyUpper (sP.getD "IND")) = some creds)
    (hgal : (match galP with
             | none => true
             | some s =>
                 pyLower s = "true" || pyLower s = "1" || pyLower s = "yes" ||
                 pyLower s = "false" || pyLower s = "0" || pyLower s = "no") = true)
    (hcs : (match csP with
            | none => some (7 : Int)
            | some s => pyInt? s) = some csi)
    (hcsi : 0 ≤ csi)
    (hcu : creds.lookup "uid" = some cu)
    (hcp : creds.lookup "password" = some cp) :
    showHandler accounts garenaRes majorRes fetchRes sP uP galP csP =
      showPipeline garenaRes majorRes fetchRes n := by
  subst hu
  simp [showHandler, hu0, hn, hs, hgal, hcs, hcu, hcp,
    not_le.mpr hpos, not_lt.mpr hcsi]

/-- When both auth stages return complete dictionaries, the personal-show
pipeline reaches Step 3. -/
theorem showPipeline_auth {g m : Dict}
    {garenaRes majorRes : Except PyExc (Option Dict)} {fetchRes : Except PyExc J}
    {n : Int} {ja jo jt js : J}
    (hg : garenaRes = .ok (some g))
    (hat : g.lookup "access_token" = some ja)
    (hoid : g.lookup "open_id" = some jo)
    (hm : majorRes = .ok (some m))
    (htk : m.lookup "token" = some jt)
    (hsu : m.lookup "serverUrl" = some js) :
    showPipeline garenaRes majorRes fetchRes n = showStep3 fetchRes n := by
  subst hg hm
  simp [showPipeline, optDictTruthy_of_lookup hat, optDictHas_of_lookup hat,
    optDictHas_of_lookup hoid, optDictTruthy_of_lookup htk,
    optDictHas_of_lookup htk, optDictHas_of_lookup hsu]

/-- When the keyword and region validations of the search endpoint pass, the
handler runs the post-validation part on the region's credentials. -/
theorem searchHandler_valid {accounts : Registry}
    {garenaRes majorRes : Except PyExc (Option Dict)} {searchRes : Except PyExc J}
    {sP kwP : Option String} {kw : String} {creds : Dict}
    (hkw : kwP = some kw) (h0 : ¬ kw = "")
    (h3 : ¬ (pyStrip kw).length < 3)
    (hs : accounts.lookup (pyUpper (sP.getD "IND")) = some creds) :
    searchHandler accounts garenaRes majorRes searchRes sP kwP =
      searchRun creds garenaRes majorRes searchRes := by
  subst hkw
  simp [searchHandler, h0, h3, hs]

/-- When credentials exist and both auth stages return complete dictionaries,
the search try-body reaches the search call. -/
theorem searchTry_auth {creds g m : Dict} {searchRes : Except PyExc J}
    {cu cp ja jo jt js : J}
    (hcu : creds.lookup "uid" = some cu)
    (hcp : creds.lookup "password" = some cp)
    (hat : g.lookup "access_token" = some ja)
    (hoid : g.lookup "open_id" = some jo)
    (htk : m.lookup "token" = some jt)
    (hsu : m.lookup "serverUrl" = some js) :
    searchTry creds (.ok (some g)) (.ok (some m)) searchRes =
      searchFetch searchRes := by
  simp [searchTry, dictGetE, optGetE, hcu, hcp, hat, hoid, htk, hsu,
    optDictTruthy_of_lookup hat, optDictHas_of_lookup hat,
    optDictTruthy_of_lookup htk, optDictHas_of_lookup htk]

/-- Search endpoint, fetch succeeded: the raw result is returned with 200. -/
theorem searchRun_auth_ok {creds g m : Dict} {searchRes : Except PyExc J}
    {r cu cp ja jo jt js : J}
    (hcu : creds.lookup "uid" = some cu)
    (hcp : creds.lookup "password" = some cp)
    (hat : g.lookup "access_token" = some ja)
    (hoid : g.lookup "open_id" = some jo)
    (htk : m.lookup "token" = some jt)
    (hsu : m.lookup "serverUrl" = some js)
    (hr : searchRes = .ok r) :
    searchRun creds (.ok (some g)) (.ok (some m)) searchRes =
      (⟨r, 200⟩, [.stage1, .stage2, .fetch]) := by
  subst hr
  simp [searchRun, searchTry_auth hcu hcp hat hoid htk hsu, searchFetch]

/-- Search endpoint, fetch raised: a `KeyError` maps to the
missing-configuration 500, any other exception to the generic 500. -/
theorem searchRun_auth_err {creds g m : Dict} {searchRes : Except PyExc J}
    {e : PyExc} {cu cp ja jo jt js : J}
    (hcu : creds.lookup "uid" = some cu)
    (hcp : creds.lookup "password" = some cp)
    (hat : g.lookup "access_token" = some ja)
    (hoid : g.lookup "open_id" = some jo)
    (htk : m.lookup "token" = some jt)
    (hsu : m.lookup "serverUrl" = some js)
    (he : searchRes = .error e) :
    searchRun creds (.ok (some g)) (.ok (some m)) searchRes =
      ((match e with
        | .keyError k =>
            searchErr ("Missing configuration: " ++ ("'" ++ k ++ "'")) 500
        | e => searchErr ("Internal server error: " ++ e.str) 500),
       [.stage1, .stage2, .fetch]) := by
  subst he
  cases e <;>
    simp [searchRun, searchTry_auth hcu hcp hat hoid htk hsu, searchFetch,
      handleChain, searchChain, clsMatches, PyExc.str]

/-! ### C1: empty data-fetch result -/

/-- C1 counterexample: on `/get_search_account_by_keyword` a request that
passes validation and both auth stages and whose data fetch returns an empty
list is answered with status 200 (the raw empty result), not 404: the search
handler has no empty-result check (src/app.py lines 52-56). -/
theorem C1_counterexample :
    searchHandler regW gOkW mOkW (.ok (J.jarr [])) none (some "abc") =
      (⟨J.jarr [], 200⟩, [.stage1, .stage2, .fetch]) := rfl

/-- C1 (amended): when validation and both auth stages succeed and the data
fetch returns an empty/absent result, `/get_player_stats` and
`/get_player_personal_show` respond 404, while
`/get_search_account_by_keyword` returns the empty result itself with 200. -/
theorem C1_amended {accounts : Registry}
    {garenaRes majorRes : Except PyExc (Option Dict)} {fetchRes : Except PyExc J}
    {g m creds₁ creds₂ creds₃ : Dict}
    {v ja jo jt js cu₁ cp₁ cu₂ cp₂ cu₃ cp₃ : J}
    {sP₁ uP₁ gmP mmP sP₂ uP₂ galP csP sP₃ kwP : Option String}
    {u₁ u₂ kw : String} {n csi : Int}
    (hg : garenaRes = .ok (some g))
    (hat : g.lookup "access_token" = some ja)
    (hoid : g.lookup "open_id" = some jo)
    (hm : majorRes = .ok (some m))
    (htk : m.lookup "token" = some jt)
    (hsu : m.lookup "serverUrl" = some js)
    (hf : fetchRes = .ok v) (hv : v.truthy = false)
    (hu₁ : uP₁ = some u₁) (hud : pyIsDigit u₁ = true)
    (hs₁ : accounts.lookup (pyUpper (sP₁.getD "IND")) = some creds₁)
    (hc₁ : creds₁.lookup "uid" = some cu₁)
    (hc₁p : creds₁.lookup "password" = some cp₁)
    (hgm : pyLower (gmP.getD "br") = "br" ∨ pyLower (gmP.getD "br") = "cs")
    (hmm : pyUpper (mmP.getD "CAREER") = "CAREER" ∨
      pyUpper (mmP.getD "CAREER") = "NORMAL" ∨
      pyUpper (mmP.getD "CAREER") = "RANKED")
    (hu₂ : uP₂ = some u₂) (hu₂0 : ¬ u₂ = "")
    (hn : pyInt? u₂ = some n) (hpos : 0 < n)
    (hs₂ : accounts.lookup (pyUpper (sP₂.getD "IND")) = some creds₂)
    (hgal : (match galP with
             | none => true
             | some s =>
                 pyLower s = "true" || pyLower s = "1" || pyLower s = "yes" ||
                 pyLower s = "false" || pyLower s = "0" || pyLower s = "no") = true)
    (hcs : (match csP with
            | none => some (7 : Int)
            | some s => pyInt? s) = some csi)
    (hcsi : 0 ≤ csi)
    (hc₂ : creds₂.lookup "uid" = some cu₂)
    (hc₂p : creds₂.lookup "password" = some cp₂)
    (hkw : kwP = some kw) (hk0 : ¬ kw = "")
    (hk3 : ¬ (pyStrip kw).length < 3)
    (hs₃ : accounts.lookup (pyUpper (sP₃.getD "IND")) = some creds₃)
    (hc₃ : creds₃.lookup "uid" = some cu₃)
    (hc₃p : creds₃.lookup "password" = some cp₃) :
    (statsHandler accounts garenaRes majorRes fetchRes sP₁ uP₁ gmP mmP).1 =
      statsErr "No stats data"
        "No player statistics found for the given parameters" 404 ∧
    (showHandler accounts garenaRes majorRes fetchRes sP₂ uP₂ galP csP).1 =
      showErr "Data Not Found" ("No player data found for UID: " ++ toString n)
        "PLAYER_DATA_NOT_FOUND" 404 ∧
    (searchHandler accounts garenaRes majorRes fetchRes sP₃ kwP).1 =
      ⟨v, 200⟩ := by
  subst hg hm hf
  refine ⟨?_, ?_, ?_⟩
  · rw [statsHandler_valid hu₁ hud hs₁ hgm hmm,
      statsPipeline_auth hc₁ hc₁p rfl hat hoid rfl htk hsu]
    simp [statsStep3, hv]
  · rw [showHandler_valid hu₂ hu₂0 hn hpos hs₂ hgal hcs hcsi hc₂ hc₂p,
      showPipeline_auth rfl hat hoid rfl htk hsu]
    simp [showStep3, hv]
  · rw [searchHandler_valid hkw hk0 hk3 hs₃,
      searchRun_auth_ok hc₃ hc₃p hat hoid htk hsu rfl]

/-- C1 witness: the amended statement at a concrete request. -/
theorem C1_amended_witness :
    (statsHandler regW gOkW mOkW (.ok (J.jarr []))
        (some "ind") (some "123456789") none none).1 =
      statsErr "No stats data"
        "No player statistics found for the given parameters" 404 ∧
    (showHandler regW gOkW mOkW (.ok (J.jarr []))
        none (some "123456789") none none).1 =
      showErr "Data Not Found"
        ("No player data found for UID: " ++ toString (123456789 : Int))
        "PLAYER_DATA_NOT_FOUND" 404 ∧
    (searchHandler regW gOkW mOkW (.ok (J.jarr [])) none (some "abc")).1 =
      ⟨J.jarr [], 200⟩ :=
  C1_amended rfl rfl rfl rfl rfl rfl rfl (by decide)
    rfl (by decide) rfl rfl rfl (Or.inl rfl) (Or.inl rfl)
    rfl (by decide) rfl (by decide) rfl rfl rfl (by decide) rfl rfl
    rfl (by decide) (by decide) rfl rfl rfl

/-! ### C2: unknown server -/

/-- C2 counterexample: with regions IND and BR configured, an unknown-server
request on the search endpoint is answered 400 with body
`{"error": "Invalid server: XX"}`; the configured region code "BR" appears
nowhere in the body, so the body does not enumerate the configured regions
(src/app.py lines 38-39). -/
theorem C2_counterexample :
    (searchHandler regW gOkW mOkW (.ok J.null) (some "XX") (some "abc")).1 =
      searchErr "Invalid server: XX" 400 ∧
    J.containsStr "BR"
      (searchHandler regW gOkW mOkW (.ok J.null) (some "XX") (some "abc")).1.body
      = false :=
  ⟨rfl, by decide⟩

/-- C2 (amended): for a server not in the registry, all three endpoints
respond 400; `/get_player_stats` and `/get_player_personal_show` enumerate
the configured region codes in the body, while
`/get_search_account_by_keyword` only names the rejected region. -/
theorem C2_amended {accounts : Registry}
    {garenaRes majorRes : Except PyExc (Option Dict)} {fetchRes : Except PyExc J}
    {sP₁ uP₁ gmP mmP sP₂ uP₂ galP csP sP₃ kwP : Option String}
    {u₁ u₂ kw : String} {n : Int}
    (hu₁ : uP₁ = some u₁) (hud : pyIsDigit u₁ = true)
    (hs₁ : accounts.lookup (pyUpper (sP₁.getD "IND")) = none)
    (hu₂ : uP₂ = some u₂) (hu₂0 : ¬ u₂ = "")
    (hn : pyInt? u₂ = some n) (hpos : 0 < n)
    (hs₂ : accounts.lookup (pyUpper (sP₂.getD "IND")) = none)
    (hkw : kwP = some kw) (hk0 : ¬ kw = "")
    (hk3 : ¬ (pyStrip kw).length < 3)
    (hs₃ : accounts.lookup (pyUpper (sP₃.getD "IND")) = none) :
    (statsHandler accounts garenaRes majorRes fetchRes sP₁ uP₁ gmP mmP).1 =
      statsErr "Invalid server"
        ("Server '" ++ pyUpper (sP₁.getD "IND") ++
          "' not found. Available servers: " ++
          pyStrList (accounts.map Prod.fst)) 400 ∧
    (showHandler accounts garenaRes majorRes fetchRes sP₂ uP₂ galP csP).1 =
      showServerNotFound (pyUpper (sP₂.getD "IND")) (accounts.map Prod.fst) ∧
    (searchHandler accounts garenaRes majorRes fetchRes sP₃ kwP).1 =
      searchErr ("Invalid server: " ++ pyUpper (sP₃.getD "IND")) 400 := by
  subst hu₁ hu₂ hkw
  refine ⟨?_, ?_, ?_⟩
  · simp [statsHandler, hud, ne_empty_of_pyIsDigit hud, hs₁]
  · simp [showHandler, hu₂0, hn, hs₂, not_le.mpr hpos]
  · simp [searchHandler, hk0, hk3, hs₃]

/-- C2 witness: the amended statement at a concrete unknown server. -/
theorem C2_amended_witness :
    (statsHandler regW gOkW mOkW (.ok J.null)
        (some "XX") (some "123") none none).1 =
      statsErr "Invalid server"
        ("Server '" ++ pyUpper ((some "XX").getD "IND") ++
          "' not found. Available servers: " ++
          pyStrList (regW.map Prod.fst)) 400 ∧
    (showHandler regW gOkW mOkW (.ok J.null)
        (some "XX") (some "123") none none).1 =
      showServerNotFound (pyUpper ((some "XX").getD "IND"))
        (regW.map Prod.fst) ∧
    (searchHandler regW gOkW mOkW (.ok J.null) (some "XX") (some "abc")).1 =
      searchErr ("Invalid server: " ++ pyUpper ((some "XX").getD "IND")) 400 :=
  C2_amended rfl (by decide) rfl
    rfl (by decide) rfl (by decide) rfl
    rfl (by decide) (by decide) rfl

/-! ### C3: raised failures during the auth exchange -/

/-- C3 counterexample: on the search endpoint a request passing validation
whose stage-1 call raises is answered 500 (the generic handler at
src/app.py lines 60-61), not 401. -/
theorem C3_counterexample :
    (searchHandler regW (.error (.connectionError "conn refused")) mOkW
        (.ok J.null) none (some "abc")).1 =
      searchErr "Internal server error: conn refused" 500 := rfl

/-- C3 (amended): a RAISED failure in stage 1 or stage 2 never yields 401:
on `/get_player_stats` the inner `except` blocks map it to 502, and on the
other two endpoints it reaches a generic handler that responds 500.  (401 is
produced only for returned-but-incomplete auth results, see C5.) -/
theorem C3_amended {accounts : Registry} {e₁ e₂ : PyExc}
    {garenaRes majorRes : Except PyExc (Option Dict)} {fetchRes : Except PyExc J}
    {g creds₁ creds₂ creds₃ : Dict} {ja jo cu₁ cp₁ cu₂ cp₂ cu₃ cp₃ : J}
    {sP₁ uP₁ gmP mmP sP₂ uP₂ galP csP sP₃ kwP : Option String}
    {u₁ u₂ kw : String} {n csi : Int}
    (hu₁ : uP₁ = some u₁) (hud : pyIsDigit u₁ = true)
    (hs₁ : accounts.lookup (pyUpper (sP₁.getD "IND")) = some creds₁)
    (hc₁ : creds₁.lookup "uid" = some cu₁)
    (hc₁p : creds₁.lookup "password" = some cp₁)
    (hgm : pyLower (gmP.getD "br") = "br" ∨ pyLower (gmP.getD "br") = "cs")
    (hmm : pyUpper (mmP.getD "CAREER") = "CAREER" ∨
      pyUpper (mmP.getD "CAREER") = "NORMAL" ∨
      pyUpper (mmP.getD "CAREER") = "RANKED")
    (hu₂ : uP₂ = some u₂) (hu₂0 : ¬ u₂ = "")
    (hn : pyInt? u₂ = some n) (hpos : 0 < n)
    (hs₂ : accounts.lookup (pyUpper (sP₂.getD "IND")) = some creds₂)
    (hgal : (match galP with
             | none => true
             | some s =>
                 pyLower s = "true" || pyLower s = "1" || pyLower s = "yes" ||
                 pyLower s = "false" || pyLower s = "0" || pyLower s = "no") = true)
    (hcs : (match csP with
            | none => some (7 : Int)
            | some s => pyInt? s) = some csi)
    (hcsi : 0 ≤ csi)
    (hc₂ : creds₂.lookup "uid" = some cu₂)
    (hc₂p : creds₂.lookup "password" = some cp₂)
    (hkw : kwP = some kw) (hk0 : ¬ kw = "")
    (hk3 : ¬ (pyStrip kw).length < 3)
    (hs₃ : accounts.lookup (pyUpper (sP₃.getD "IND")) = some creds₃)
    (hc₃ : creds₃.lookup "uid" = some cu₃)
    (hc₃p : creds₃.lookup "password" = some cp₃)
    (hg : garenaRes = .ok (some g))
    (hat : g.lookup "access_token" = some ja)
    (hoid : g.lookup "open_id" = some jo) :
    (statsHandler accounts (.error e₁) majorRes fetchRes sP₁ uP₁ gmP mmP).1 =
      statsErr "Garena authentication error"
        ("Failed to authenticate with Garena: " ++ e₁.str) 502 ∧
    (statsHandler accounts garenaRes (.error e₂) fetchRes sP₁ uP₁ gmP mmP).1 =
      statsErr "Major login error"
        ("Failed to login to Major: " ++ e₂.str) 502 ∧
    (showHandler accounts (.error e₁) majorRes fetchRes sP₂ uP₂ galP csP).1 =
      showInternal500 ∧
    (showHandler accounts garenaRes (.error e₂) fetchRes sP₂ uP₂ galP csP).1 =
      showInternal500 ∧
    (searchHandler accounts (.error e₁) majorRes fetchRes sP₃ kwP).1.status
      = 500 ∧
    (searchHandler accounts garenaRes (.error e₂) fetchRes sP₃ kwP).1.status
      = 500 := by
  subst hg
  refine ⟨?_, ?_, ?_, ?_, ?_, ?_⟩
  · rw [statsHandler_valid hu₁ hud hs₁ hgm hmm]
    simp [statsPipeline, dictGetE, hc₁, hc₁p]
  · rw [statsHandler_valid hu₁ hud hs₁ hgm hmm]
    simp [statsPipeline, dictGetE, optGetE, hc₁, hc₁p, hat, hoid,
      optDictTruthy_of_lookup hat, optDictHas_of_lookup hat]
  · rw [showHandler_valid hu₂ hu₂0 hn hpos hs₂ hgal hcs hcsi hc₂ hc₂p]
    simp [showPipeline]
  · rw [showHandler_valid hu₂ hu₂0 hn hpos hs₂ hgal hcs hcsi hc₂ hc₂p]
    simp [showPipeline, optDictTruthy_of_lookup hat, optDictHas_of_lookup hat,
      optDictHas_of_lookup hoid]
  · rw [searchHandler_valid hkw hk0 hk3 hs₃]
    cases e₁ <;>
      simp [searchRun, searchTry, dictGetE, hc₃, hc₃p, handleChain,
        searchChain, clsMatches, searchErr]
  · rw [searchHandler_valid hkw hk0 hk3 hs₃]
    cases e₂ <;>
      simp [searchRun, searchTry, dictGetE, optGetE, hc₃, hc₃p, hat, hoid,
        optDictTruthy_of_lookup hat, optDictHas_of_lookup hat, handleChain,
        searchChain, clsMatches, searchErr]

/-- C3 witness: the amended statement at concrete raised failures. -/
theorem C3_amended_witness :
    (statsHandler regW (.error (.connectionError "refused")) mOkW (.ok J.null)
        none (some "123") none none).1 =
      statsErr "Garena authentication error"
        ("Failed to authenticate with Garena: " ++
          PyExc.str (.connectionError "refused")) 502 ∧
    (statsHandler regW gOkW
        (.error (.otherExc "RuntimeError" "boom")) (.ok J.null)
        none (some "123") none none).1 =
      statsErr "Major login error"
        ("Failed to login to Major: " ++
          PyExc.str (.otherExc "RuntimeError" "boom")) 502 ∧
    (showHandler regW (.error (.connectionError "refused")) mOkW (.ok J.null)
        none (some "123") none none).1 = showInternal500 ∧
    (showHandler regW gOkW (.error (.otherExc "RuntimeError" "boom"))
        (.ok J.null) none (some "123") none none).1 = showInternal500 ∧
    (searchHandler regW (.error (.connectionError "refused")) mOkW
        (.ok J.null) none (some "abc")).1.status = 500 ∧
    (searchHandler regW gOkW (.error (.otherExc "RuntimeError" "boom"))
        (.ok J.null) none (some "abc")).1.status = 500 :=
  C3_amended rfl (by decide) rfl rfl rfl (Or.inl rfl) (Or.inl rfl)
    rfl (by decide) rfl (by decide) rfl rfl rfl (by decide) rfl rfl
    rfl (by decide) (by decide) rfl rfl rfl
    rfl rfl rfl

/-- Evaluation of the Step-3 except chain of `/get_player_stats`: `ValueError`
and `ConnectionError` are handled; every other exception hits the
`except ProtobufError` clause, whose unbound name raises `NameError`, so the
`Data processing error`, `External API error` and `Stats retrieval error`
bodies are unreachable. -/
theorem statsStep3Chain_eval (e : PyExc) :
    handleChain statsStep3Chain e =
      match e with
      | .valueError m => .ok (statsErr "Invalid request parameters" m 400)
      | .connectionError m => .ok (statsErr "Connection error" m 503)
      | _ => .error (.nameError "name 'ProtobufError' is not defined") := by
  cases e <;> rfl

/-! ### C4: connection failures, 502 versus 503 -/

/-- C4 counterexample: on the search endpoint, a `ConnectionError` raised by
the data fetch is answered 500 by the generic handler (src/app.py
lines 60-61), not 503. -/
theorem C4_counterexample :
    (searchHandler regW gOkW mOkW (.error (.connectionError "reset"))
        none (some "abc")).1 =
      searchErr "Internal server error: reset" 500 := rfl

/-- C4 (amended): the 502/503 asymmetry holds on `/get_player_stats` only
(auth-stage `ConnectionError` → 502, data-fetch `ConnectionError` → 503);
on the search and personal-show endpoints a `ConnectionError` raised at any
stage reaches a generic handler and yields 500. -/
theorem C4_amended {accounts : Registry} {msg : String}
    {garenaRes majorRes : Except PyExc (Option Dict)} {fetchRes : Except PyExc J}
    {g m creds₁ creds₂ creds₃ : Dict} {ja jo jt js cu₁ cp₁ cu₂ cp₂ cu₃ cp₃ : J}
    {sP₁ uP₁ gmP mmP sP₂ uP₂ galP csP sP₃ kwP : Option String}
    {u₁ u₂ kw : String} {n csi : Int}
    (hu₁ : uP₁ = some u₁) (hud : pyIsDigit u₁ = true)
    (hs₁ : accounts.lookup (pyUpper (sP₁.getD "IND")) = some creds₁)
    (hc₁ : creds₁.lookup "uid" = some cu₁)
    (hc₁p : creds₁.lookup "password" = some cp₁)
    (hgm : pyLower (gmP.getD "br") = "br" ∨ pyLower (gmP.getD "br") = "cs")
    (hmm : pyUpper (mmP.getD "CAREER") = "CAREER" ∨
      pyUpper (mmP.getD "CAREER") = "NORMAL" ∨
      pyUpper (mmP.getD "CAREER") = "RANKED")
    (hu₂ : uP₂ = some u₂) (hu₂0 : ¬ u₂ = "")
    (hn : pyInt? u₂ = some n) (hpos : 0 < n)
    (hs₂ : accounts.lookup (pyUpper (sP₂.getD "IND")) = some creds₂)
    (hgal : (match galP with
             | none => true
             | some s =>
                 pyLower s = "true" || pyLower s = "1" || pyLower s = "yes" ||
                 pyLower s = "false" || pyLower s = "0" || pyLower s = "no") = true)
    (hcs : (match csP with
            | none => some (7 : Int)
            | some s => pyInt? s) = some csi)
    (hcsi : 0 ≤ csi)
    (hc₂ : creds₂.lookup "uid" = some cu₂)
    (hc₂p : creds₂.lookup "password" = some cp₂)
    (hkw : kwP = some kw) (hk0 : ¬ kw = "")
    (hk3 : ¬ (pyStrip kw).length < 3)
    (hs₃ : accounts.lookup (pyUpper (sP₃.getD "IND")) = some creds₃)
    (hc₃ : creds₃.lookup "uid" = some cu₃)
    (hc₃p : creds₃.lookup "password" = some cp₃)
    (hg : garenaRes = .ok (some g))
    (hat : g.lookup "access_token" = some ja)
    (hoid : g.lookup "open_id" = some jo)
    (hm : majorRes = .ok (some m))
    (htk : m.lookup "token" = some jt)
    (hsu : m.lookup "serverUrl" = some js) :
    (statsHandler accounts (.error (.connectionError msg)) majorRes fetchRes
        sP₁ uP₁ gmP mmP).1 =
      statsErr "Garena authentication error"
        ("Failed to authenticate with Garena: " ++ msg) 502 ∧
    (statsHandler accounts garenaRes (.error (.connectionError msg)) fetchRes
        sP₁ uP₁ gmP mmP).1 =
      statsErr "Major login error" ("Failed to login to Major: " ++ msg) 502 ∧
    (statsHandler accounts garenaRes majorRes
        (.error (.connectionError msg)) sP₁ uP₁ gmP mmP).1 =
      statsErr "Connection error" msg 503 ∧
    (showHandler accounts (.error (.connectionError msg)) majorRes fetchRes
        sP₂ uP₂ galP csP).1 = showInternal500 ∧
    (showHandler accounts garenaRes (.error (.connectionError msg)) fetchRes
        sP₂ uP₂ galP csP).1 = showInternal500 ∧
    (showHandler accounts garenaRes majorRes
        (.error (.connectionError msg)) sP₂ uP₂ galP csP).1 =
      showInternal500 ∧
    (searchHandler accounts (.error (.connectionError msg)) majorRes fetchRes
        sP₃ kwP).1 = searchErr ("Internal server error: " ++ msg) 500 ∧
    (searchHandler accounts garenaRes (.error (.connectionError msg)) fetchRes
        sP₃ kwP).1 = searchErr ("Internal server error: " ++ msg) 500 ∧
    (searchHandler accounts garenaRes majorRes
        (.error (.connectionError msg)) sP₃ kwP).1 =
      searchErr ("Internal server error: " ++ msg) 500 := by
  subst hg hm
  refine ⟨?_, ?_, ?_, ?_, ?_, ?_, ?_, ?_, ?_⟩
  · rw [statsHandler_valid hu₁ hud hs₁ hgm hmm]
    simp [statsPipeline, dictGetE, hc₁, hc₁p, PyExc.str]
  · rw [statsHandler_valid hu₁ hud hs₁ hgm hmm]
    simp [statsPipeline, dictGetE, optGetE, hc₁, hc₁p, hat, hoid,
      optDictTruthy_of_lookup hat, optDictHas_of_lookup hat, PyExc.str]
  · rw [statsHandler_valid hu₁ hud hs₁ hgm hmm,
      statsPipeline_auth hc₁ hc₁p rfl hat hoid rfl htk hsu]
    simp [statsStep3, statsStep3Chain_eval]
  · rw [showHandler_valid hu₂ hu₂0 hn hpos hs₂ hgal hcs hcsi hc₂ hc₂p]
    simp [showPipeline]
  · rw [showHandler_valid hu₂ hu₂0 hn hpos hs₂ hgal hcs hcsi hc₂ hc₂p]
    simp [showPipeline, optDictTruthy_of_lookup hat, optDictHas_of_lookup hat,
      optDictHas_of_lookup hoid]
  · rw [showHandler_valid hu₂ hu₂0 hn hpos hs₂ hgal hcs hcsi hc₂ hc₂p,
      showPipeline_auth rfl hat hoid rfl htk hsu]
    simp [showStep3]
  · rw [searchHandler_valid hkw hk0 hk3 hs₃]
    simp [searchRun, searchTry, dictGetE, hc₃, hc₃p, handleChain,
      searchChain, clsMatches, PyExc.str]
  · rw [searchHandler_valid hkw hk0 hk3 hs₃]
    simp [searchRun, searchTry, dictGetE, optGetE, hc₃, hc₃p, hat, hoid,
      optDictTruthy_of_lookup hat, optDictHas_of_lookup hat, handleChain,
      searchChain, clsMatches, PyExc.str]
  · rw [searchHandler_valid hkw hk0 hk3 hs₃,
      searchRun_auth_err hc₃ hc₃p hat hoid htk hsu rfl]
    simp [PyExc.str]

/-- C4 witness: the amended statement at a concrete connection failure. -/
theorem C4_amended_witness :
    (statsHandler regW (.error (.connectionError "reset")) mOkW (.ok J.null)
        none (some "123") none none).1 =
      statsErr "Garena authentication error"
        ("Failed to authenticate with Garena: " ++ "reset") 502 ∧
    (statsHandler regW gOkW (.error (.connectionError "reset")) (.ok J.null)
        none (some "123") none none).1 =
      statsErr "Major login error"
        ("Failed to login to Major: " ++ "reset") 502 ∧
    (statsHandler regW gOkW mOkW (.error (.connectionError "reset"))
        none (some "123") none none).1 =
      statsErr "Connection error" "reset" 503 ∧
    (showHandler regW (.error (.connectionError "reset")) mOkW (.ok J.null)
        none (some "123") none none).1 = showInternal500 ∧
    (showHandler regW gOkW (.error (.connectionError "reset")) (.ok J.null)
        none (some "123") none none).1 = showInternal500 ∧
    (showHandler regW gOkW mOkW (.error (.connectionError "reset"))
        none (some "123") none none).1 = showInternal500 ∧
    (searchHandler regW (.error (.connectionError "reset")) mOkW (.ok J.null)
        none (some "abc")).1 =
      searchErr ("Internal server error: " ++ "reset") 500 ∧
    (searchHandler regW gOkW (.error (.connectionError "reset")) (.ok J.null)
        none (some "abc")).1 =
      searchErr ("Internal server error: " ++ "reset") 500 ∧
    (searchHandler regW gOkW mOkW (.error (.connectionError "reset"))
        none (some "abc")).1 =
      searchErr ("Internal server error: " ++ "reset") 500 :=
  C4_amended rfl (by decide) rfl rfl rfl (Or.inl rfl) (Or.inl rfl)
    rfl (by decide) rfl (by decide) rfl rfl rfl (by decide) rfl rfl
    rfl (by decide) (by decide) rfl rfl rfl
    rfl rfl rfl rfl rfl rfl

/-! ### C5: incomplete auth-stage results -/

/-- C5 counterexample: on `/get_player_stats`, a stage-1 result containing
the access token but no open id passes the line-115 check; the
`garena_token_result["open_id"]` subscript inside Step 2 then raises
`KeyError`, answered 502 "Major login error" (src/app.py lines 129-145),
not 401. -/
theorem C5_counterexample :
    (statsHandler regW (.ok (some [("access_token", J.jstr "tok")])) mOkW
        (.ok J.null) none (some "123") none none).1 =
      statsErr "Major login error" "Failed to login to Major: 'open_id'" 502 :=
  rfl

/-- C5 (amended): a falsy stage-1 result or one lacking the access token, and
a falsy stage-2 result or one lacking the session token, yield 401 on every
endpoint; `/get_player_personal_show` also answers 401 when only the open id
or only the server URL is missing (it checks both keys), but on
`/get_player_stats` a missing open id yields 502 and a missing server URL
yields the generic 500, and on the search endpoint either missing key yields
the 500 missing-configuration body (`KeyError` paths). -/
theorem C5_amended {accounts : Registry}
    {majorRes : Except PyExc (Option Dict)} {fetchRes : Except PyExc J}
    {go mo : Option Dict} {g g2 m2 creds₁ creds₂ creds₃ : Dict}
    {ja jo ja2 jt2 cu₁ cp₁ cu₂ cp₂ cu₃ cp₃ : J}
    {sP₁ uP₁ gmP mmP sP₂ uP₂ galP csP sP₃ kwP : Option String}
    {u₁ u₂ kw : String} {n csi : Int}
    (hu₁ : uP₁ = some u₁) (hud : pyIsDigit u₁ = true)
    (hs₁ : accounts.lookup (pyUpper (sP₁.getD "IND")) = some creds₁)
    (hc₁ : creds₁.lookup "uid" = some cu₁)
    (hc₁p : creds₁.lookup "password" = some cp₁)
    (hgm : pyLower (gmP.getD "br") = "br" ∨ pyLower (gmP.getD "br") = "cs")
    (hmm : pyUpper (mmP.getD "CAREER") = "CAREER" ∨
      pyUpper (mmP.getD "CAREER") = "NORMAL" ∨
      pyUpper (mmP.getD "CAREER") = "RANKED")
    (hu₂ : uP₂ = some u₂) (hu₂0 : ¬ u₂ = "")
    (hn : pyInt? u₂ = some n) (hpos : 0 < n)
    (hs₂ : accounts.lookup (pyUpper (sP₂.getD "IND")) = some creds₂)
    (hgal : (match galP with
             | none => true
             | some s =>
                 pyLower s = "true" || pyLower s = "1" || pyLower s = "yes" ||
                 pyLower s = "false" || pyLower s = "0" || pyLower s = "no") = true)
    (hcs : (match csP with
            | none => some (7 : Int)
            | some s => pyInt? s) = some csi)
    (hcsi : 0 ≤ csi)
    (hc₂ : creds₂.lookup "uid" = some cu₂)
    (hc₂p : creds₂.lookup "password" = some cp₂)
    (hkw : kwP = some kw) (hk0 : ¬ kw = "")
    (hk3 : ¬ (pyStrip kw).length < 3)
    (hs₃ : accounts.lookup (pyUpper (sP₃.getD "IND")) = some creds₃)
    (hc₃ : creds₃.lookup "uid" = some cu₃)
    (hc₃p : creds₃.lookup "password" = some cp₃)
    (hga : optDictTruthy go = false ∨ optDictHas go "access_token" = false)
    (hmo : optDictTruthy mo = false ∨ optDictHas mo "token" = false)
    (hat : g.lookup "access_token" = some ja)
    (hoid : g.lookup "open_id" = some jo)
    (hat2 : g2.lookup "access_token" = some ja2)
    (hoidn : g2.lookup "open_id" = none)
    (htk2 : m2.lookup "token" = some jt2)
    (hsun : m2.lookup "serverUrl" = none) :
    (statsHandler accounts (.ok go) majorRes fetchRes sP₁ uP₁ gmP mmP).1 =
      statsErr "Garena authentication failed"
        "Failed to obtain Garena access token" 401 ∧
    (showHandler accounts (.ok go) majorRes fetchRes sP₂ uP₂ galP csP).1 =
      showErr "Authentication Failed"
        "Failed to obtain Garena token. Invalid credentials or service unavailable."
        "GARENA_AUTH_FAILED" 401 ∧
    (searchHandler accounts (.ok go) majorRes fetchRes sP₃ kwP).1 =
      searchErr "Authentication failed" 401 ∧
    (statsHandler accounts (.ok (some g)) (.ok mo) fetchRes sP₁ uP₁ gmP mmP).1 =
      statsErr "Major login failed" "Failed to obtain Major login token" 401 ∧
    (showHandler accounts (.ok (some g)) (.ok mo) fetchRes sP₂ uP₂ galP csP).1 =
      showErr "Login Failed" "Failed to perform major login. Service unavailable."
        "MAJOR_LOGIN_FAILED" 401 ∧
    (searchHandler accounts (.ok (some g)) (.ok mo) fetchRes sP₃ kwP).1 =
      searchErr "Major login failed" 401 ∧
    (showHandler accounts (.ok (some g2)) majorRes fetchRes sP₂ uP₂ galP csP).1 =
      showErr "Authentication Failed"
        "Failed to obtain Garena token. Invalid credentials or service unavailable."
        "GARENA_AUTH_FAILED" 401 ∧
    (showHandler accounts (.ok (some g)) (.ok (some m2)) fetchRes sP₂ uP₂ galP csP).1 =
      showErr "Login Failed" "Failed to perform major login. Service unavailable."
        "MAJOR_LOGIN_FAILED" 401 ∧
    (statsHandler accounts (.ok (some g2)) majorRes fetchRes sP₁ uP₁ gmP mmP).1 =
      statsErr "Major login error" "Failed to login to Major: 'open_id'" 502 ∧
    (statsHandler accounts (.ok (some g)) (.ok (some m2)) fetchRes sP₁ uP₁ gmP mmP).1 =
      statsInternal500 ∧
    (searchHandler accounts (.ok (some g2)) majorRes fetchRes sP₃ kwP).1 =
      searchErr "Missing configuration: 'open_id'" 500 ∧
    (searchHandler accounts (.ok (some g)) (.ok (some m2)) fetchRes sP₃ kwP).1 =
      searchErr "Missing configuration: 'serverUrl'" 500 := by
  refine ⟨?_, ?_, ?_, ?_, ?_, ?_, ?_, ?_, ?_, ?_, ?_, ?_⟩
  · rw [statsHandler_valid hu₁ hud hs₁ hgm hmm]
    rcases hga with h | h <;> simp [statsPipeline, dictGetE, hc₁, hc₁p, h]
  · rw [showHandler_valid hu₂ hu₂0 hn hpos hs₂ hgal hcs hcsi hc₂ hc₂p]
    rcases hga with h | h <;> simp [showPipeline, h]
  · rw [searchHandler_valid hkw hk0 hk3 hs₃]
    rcases hga with h | h <;>
      simp [searchRun, searchTry, dictGetE, hc₃, hc₃p, h]
  · rw [statsHandler_valid hu₁ hud hs₁ hgm hmm]
    rcases hmo with h | h <;>
      simp [statsPipeline, dictGetE, optGetE, hc₁, hc₁p, hat, hoid,
        optDictTruthy_of_lookup hat, optDictHas_of_lookup hat, h]
  · rw [showHandler_valid hu₂ hu₂0 hn hpos hs₂ hgal hcs hcsi hc₂ hc₂p]
    rcases hmo with h | h <;>
      simp [showPipeline, optDictTruthy_of_lookup hat, optDictHas_of_lookup hat,
        optDictHas_of_lookup hoid, h]
  · rw [searchHandler_valid hkw hk0 hk3 hs₃]
    rcases hmo with h | h <;>
      simp [searchRun, searchTry, dictGetE, optGetE, hc₃, hc₃p, hat, hoid,
        optDictTruthy_of_lookup hat, optDictHas_of_lookup hat, h]
  · rw [showHandler_valid hu₂ hu₂0 hn hpos hs₂ hgal hcs hcsi hc₂ hc₂p]
    simp [showPipeline, optDictTruthy_of_lookup hat2, optDictHas_of_lookup hat2,
      optDictHas, hoidn]
  · rw [showHandler_valid hu₂ hu₂0 hn hpos hs₂ hgal hcs hcsi hc₂ hc₂p]
    simp [showPipeline, optDictTruthy_of_lookup hat, optDictHas_of_lookup hat,
      optDictHas_of_lookup hoid, optDictTruthy_of_lookup htk2, optDictHas,
      hat, hoid, hsun]
  · rw [statsHandler_valid hu₁ hud hs₁ hgm hmm]
    simp [statsPipeline, dictGetE, optGetE, hc₁, hc₁p,
      optDictTruthy_of_lookup hat2, optDictHas_of_lookup hat2, hoidn, PyExc.str]
  · rw [statsHandler_valid hu₁ hud hs₁ hgm hmm]
    simp [statsPipeline, dictGetE, optGetE, hc₁, hc₁p, hat, hoid,
      optDictTruthy_of_lookup hat, optDictHas_of_lookup hat,
      optDictTruthy_of_lookup htk2, optDictHas_of_lookup htk2, hsun,
      statsStep3Chain_eval]
  · rw [searchHandler_valid hkw hk0 hk3 hs₃]
    simp [searchRun, searchTry, dictGetE, optGetE, hc₃, hc₃p,
      optDictTruthy_of_lookup hat2, optDictHas_of_lookup hat2, hoidn,
      handleChain, searchChain, clsMatches, PyExc.str]
  · rw [searchHandler_valid hkw hk0 hk3 hs₃]
    simp [searchRun, searchTry, dictGetE, optGetE, hc₃, hc₃p, hat, hoid,
      optDictTruthy_of_lookup hat, optDictHas_of_lookup hat,
      optDictTruthy_of_lookup htk2, optDictHas_of_lookup htk2, hsun,
      handleChain, searchChain, clsMatches, PyExc.str]

/-- C5 witness: the amended statement at concrete incomplete auth results. -/
theorem C5_amended_witness :
    (statsHandler regW (.ok (some [])) mOkW (.ok J.null)
        none (some "123") none none).1 =
      statsErr "Garena authentication failed"
        "Failed to obtain Garena access token" 401 ∧
    (showHandler regW (.ok (some [])) mOkW (.ok J.null)
        none (some "123") none none).1 =
      showErr "Authentication Failed"
        "Failed to obtain Garena token. Invalid credentials or service unavailable."
        "GARENA_AUTH_FAILED" 401 ∧
    (searchHandler regW (.ok (some [])) mOkW (.ok J.null)
        none (some "abc")).1 =
      searchErr "Authentication failed" 401 ∧
    (statsHandler regW gOkW (.ok none) (.ok J.null)
        none (some "123") none none).1 =
      statsErr "Major login failed" "Failed to obtain Major login token" 401 ∧
    (showHandler regW gOkW (.ok none) (.ok J.null)
        none (some "123") none none).1 =
      showErr "Login Failed" "Failed to perform major login. Service unavailable."
        "MAJOR_LOGIN_FAILED" 401 ∧
    (searchHandler regW gOkW (.ok none) (.ok J.null) none (some "abc")).1 =
      searchErr "Major login failed" 401 ∧
    (showHandler regW (.ok (some [("access_token", J.jstr "tok")])) mOkW
        (.ok J.null) none (some "123") none none).1 =
      showErr "Authentication Failed"
        "Failed to obtain Garena token. Invalid credentials or service unavailable."
        "GARENA_AUTH_FAILED" 401 ∧
    (showHandler regW gOkW (.ok (some [("token", J.jstr "sess")]))
        (.ok J.null) none (some "123") none none).1 =
      showErr "Login Failed" "Failed to perform major login. Service unavailable."
        "MAJOR_LOGIN_FAILED" 401 ∧
    (statsHandler regW (.ok (some [("access_token", J.jstr "tok")])) mOkW
        (.ok J.null) none (some "123") none none).1 =
      statsErr "Major login error" "Failed to login to Major: 'open_id'" 502 ∧
    (statsHandler regW gOkW (.ok (some [("token", J.jstr "sess")]))
        (.ok J.null) none (some "123") none none).1 = statsInternal500 ∧
    (searchHandler regW (.ok (some [("access_token", J.jstr "tok")])) mOkW
        (.ok J.null) none (some "abc")).1 =
      searchErr "Missing configuration: 'open_id'" 500 ∧
    (searchHandler regW gOkW (.ok (some [("token", J.jstr "sess")]))
        (.ok J.null) none (some "abc")).1 =
      searchErr "Missing configuration: 'serverUrl'" 500 :=
  C5_amended rfl (by decide) rfl rfl rfl (Or.inl rfl) (Or.inl rfl)
    rfl (by decide) rfl (by decide) rfl rfl rfl (by decide) rfl rfl
    rfl (by decide) (by decide) rfl rfl rfl
    (Or.inl rfl) (Or.inl rfl) rfl rfl rfl rfl rfl rfl

/-! ### C7: short keywords on the search endpoint -/

/-- C7 counterexample: a present-but-empty keyword (trimmed length 0 < 3) is
answered 400 with "Keyword parameter is required" (src/app.py lines 30-31),
a message that does not mention the minimum length (the digit 3 appears
nowhere in the body). -/
theorem C7_counterexample :
    searchHandler regW gOkW mOkW (.ok J.null) none (some "") =
      (searchErr "Keyword parameter is required" 400, []) ∧
    J.containsStr "3"
      (searchHandler regW gOkW mOkW (.ok J.null) none (some "")).1.body
      = false :=
  ⟨rfl, by decide⟩

/-- C7 (amended): an absent or empty keyword is answered 400 with the
"Keyword parameter is required" body, and a present non-empty keyword with
trimmed length < 3 is answered 400 with the minimum-length body; in both
cases no external call is made. -/
theorem C7_amended {accounts : Registry}
    {garenaRes majorRes : Except PyExc (Option Dict)}
    {searchRes : Except PyExc J} {sP kwP : Option String} (kw : String) :
    (kwP.getD "" = "" →
      searchHandler accounts garenaRes majorRes searchRes sP kwP =
        (searchErr "Keyword parameter is required" 400, [])) ∧
    (kwP = some kw → ¬ kw = "" → (pyStrip kw).length < 3 →
      searchHandler accounts garenaRes majorRes searchRes sP kwP =
        (searchErr "Keyword must be at least 3 characters long" 400, [])) := by
  constructor
  · intro h
    simp [searchHandler, h]
  · intro hk h0 h3
    subst hk
    simp [searchHandler, h0, h3]

/-- C7 witness: the amended statement at an empty and at a two-character
keyword. -/
theorem C7_amended_witness :
    searchHandler regW gOkW mOkW (.ok J.null) none (some "") =
      (searchErr "Keyword parameter is required" 400, []) ∧
    searchHandler regW gOkW mOkW (.ok J.null) none (some "ab") =
      (searchErr "Keyword must be at least 3 characters long" 400, []) :=
  ⟨(C7_amended "x").1 (by decide),
   (C7_amended "ab").2 rfl (by decide) (by decide)⟩

/-! ### C8: uid validation -/

/-- C8: on `/get_player_stats` a present, non-empty uid containing a
non-digit character is answered 400 "UID must be a numeric value"
(src/app.py lines 80-85); on `/get_player_personal_show` a present,
non-empty uid parsing to an integer ≤ 0 is answered 400 with code
INVALID_UID_RANGE, and one not parsing as an integer with code
INVALID_UID_FORMAT (src/app.py lines 235-253). -/
theorem C8 {accounts : Registry}
    {garenaRes majorRes : Except PyExc (Option Dict)} {fetchRes : Except PyExc J}
    {sP₁ uP₁ gmP mmP sP₂ uP₂ galP csP : Option String}
    (u₁ u₂ : String) (n : Int) :
    (uP₁ = some u₁ → ¬ u₁ = "" → u₁.data.all Char.isDigit = false →
      (statsHandler accounts garenaRes majorRes fetchRes sP₁ uP₁ gmP mmP).1 =
        statsErr "Invalid UID" "UID must be a numeric value" 400) ∧
    (uP₂ = some u₂ → ¬ u₂ = "" → pyInt? u₂ = some n → n ≤ 0 →
      (showHandler accounts garenaRes majorRes fetchRes sP₂ uP₂ galP csP).1 =
        showErr "Invalid UID" "UID must be a positive integer."
          "INVALID_UID_RANGE" 400) ∧
    (uP₂ = some u₂ → ¬ u₂ = "" → pyInt? u₂ = none →
      (showHandler accounts garenaRes majorRes fetchRes sP₂ uP₂ galP csP).1 =
        showErr "Invalid UID" "UID must be a valid integer."
          "INVALID_UID_FORMAT" 400) := by
  refine ⟨?_, ?_, ?_⟩
  · intro h1 h2 h3
    subst h1
    simp [statsHandler, h2, pyIsDigit, h3]
  · intro h1 h2 h3 h4
    subst h1
    simp [showHandler, h2, h3, h4]
  · intro h1 h2 h3
    subst h1
    simp [showHandler, h2, h3]

/-- C8 witness: the three validation outcomes at concrete uids. -/
theorem C8_witness :
    (statsHandler regW gOkW mOkW (.ok J.null)
        none (some "12a") none none).1 =
      statsErr "Invalid UID" "UID must be a numeric value" 400 ∧
    (showHandler regW gOkW mOkW (.ok J.null)
        none (some "-5") none none).1 =
      showErr "Invalid UID" "UID must be a positive integer."
        "INVALID_UID_RANGE" 400 ∧
    (showHandler regW gOkW mOkW (.ok J.null)
        none (some "abc") none none).1 =
      showErr "Invalid UID" "UID must be a valid integer."
        "INVALID_UID_FORMAT" 400 :=
  ⟨(@C8 regW gOkW mOkW (.ok J.null) none (some "12a") none none
      none none none none "12a" "x" 0).1 rfl (by decide) (by decide),
   (@C8 regW gOkW mOkW (.ok J.null) none none none none
      none (some "-5") none none "x" "-5" (-5)).2.1
      rfl (by decide) (by decide) (by decide),
   (@C8 regW gOkW mOkW (.ok J.null) none none none none
      none (some "abc") none none "x" "abc" 0).2.2
      rfl (by decide) (by decide)⟩

/-! ### C9: stats success envelope -/

/-- C9: on `/get_player_stats`, when validation passes, both auth stages
return complete dictionaries and the fetch returns a truthy result, the
response is 200 with `{success: true, data, metadata}` echoing the
upper-cased server, the uid string, the lower-cased gamemode and the
upper-cased matchmode (src/app.py lines 149-174). -/
theorem C9 {accounts : Registry}
    {garenaRes majorRes : Except PyExc (Option Dict)} {fetchRes : Except PyExc J}
    {g m creds : Dict} {v ja jo jt js cu cp : J}
    {sP uP gmP mmP : Option String} {u : String}
    (hu : uP = some u) (hud : pyIsDigit u = true)
    (hs : accounts.lookup (pyUpper (sP.getD "IND")) = some creds)
    (hc : creds.lookup "uid" = some cu)
    (hcp : creds.lookup "password" = some cp)
    (hgm : pyLower (gmP.getD "br") = "br" ∨ pyLower (gmP.getD "br") = "cs")
    (hmm : pyUpper (mmP.getD "CAREER") = "CAREER" ∨
      pyUpper (mmP.getD "CAREER") = "NORMAL" ∨
      pyUpper (mmP.getD "CAREER") = "RANKED")
    (hg : garenaRes = .ok (some g))
    (hat : g.lookup "access_token" = some ja)
    (hoid : g.lookup "open_id" = some jo)
    (hm : majorRes = .ok (some m))
    (htk : m.lookup "token" = some jt)
    (hsu : m.lookup "serverUrl" = some js)
    (hf : fetchRes = .ok v) (hv : v.truthy = true) :
    statsHandler accounts garenaRes majorRes fetchRes sP uP gmP mmP =
      (⟨J.jobj [("success", J.jbool true), ("data", v),
         ("metadata", J.jobj
           [("server", J.jstr (pyUpper (sP.getD "IND"))),
            ("uid", J.jstr u),
            ("gamemode", J.jstr (pyLower (gmP.getD "br"))),
            ("matchmode", J.jstr (pyUpper (mmP.getD "CAREER")))])], 200⟩,
       [.stage1, .stage2, .fetch]) := by
  subst hg hm hf
  rw [statsHandler_valid hu hud hs hgm hmm,
    statsPipeline_auth hc hcp rfl hat hoid rfl htk hsu]
  simp [statsStep3, hv, statsSuccess]

/-- C9 witness: the spec's end-to-end scenario
`uid=123456789, server=IND, gamemode=br, matchmode=CAREER`. -/
theorem C9_witness :
    statsHandler regW gOkW mOkW (.ok (J.jobj [("kills", J.jnum 42)]))
      (some "IND") (some "123456789") (some "br") (some "CAREER") =
      (⟨J.jobj [("success", J.jbool true),
         ("data", J.jobj [("kills", J.jnum 42)]),
         ("metadata", J.jobj
           [("server", J.jstr (pyUpper ((some "IND").getD "IND"))),
            ("uid", J.jstr "123456789"),
            ("gamemode", J.jstr (pyLower ((some "br").getD "br"))),
            ("matchmode", J.jstr (pyUpper ((some "CAREER").getD "CAREER")))])],
        200⟩,
       [.stage1, .stage2, .fetch]) :=
  C9 rfl (by decide) rfl rfl rfl (Or.inl rfl) (Or.inl rfl)
    rfl rfl rfl rfl rfl rfl rfl (by decide)

/-! ### C6: call-trace infrastructure -/

/-- The except wrapper of the search endpoint preserves the call trace. -/
theorem searchRun_snd (creds : Dict) (gR mR : Except PyExc (Option Dict))
    (sR : Except PyExc J) :
    (searchRun creds gR mR sR).2 = (searchTry creds gR mR sR).2 := by
  unfold searchRun
  rcases h : searchTry creds gR mR sR with ⟨r, tr⟩
  cases r with
  | ok resp => simp
  | error e =>
    rcases h2 : handleChain searchChain e with r2 | r2 <;> simp [h2]

/-- If the search try-body called stage 2, the stage-1 result passed the
handler's check (truthy with an access token). -/
theorem searchTry_stage2 {creds : Dict} {gR mR : Except PyExc (Option Dict)}
    {sR : Except PyExc J}
    (h2 : ExtCall.stage2 ∈ (searchTry creds gR mR sR).2) :
    ∃ g, gR = .ok g ∧ optDictTruthy g = true ∧
      optDictHas g "access_token" = true := by
  unfold searchTry searchFetch at h2
  repeat' split at h2
  all_goals simp_all

/-- If the search try-body called the data fetch, both auth-stage results
passed the handler's checks. -/
theorem searchTry_fetch {creds : Dict} {gR mR : Except PyExc (Option Dict)}
    {sR : Except PyExc J}
    (h2 : ExtCall.fetch ∈ (searchTry creds gR mR sR).2) :
    (∃ g, gR = .ok g ∧ optDictTruthy g = true ∧
        optDictHas g "access_token" = true) ∧
    (∃ m, mR = .ok m ∧ optDictTruthy m = true ∧
        optDictHas m "token" = true) := by
  unfold searchTry searchFetch at h2
  repeat' split at h2
  all_goals simp_all

/-- Step 3 of the stats pipeline always has the full three-call trace. -/
theorem statsStep3_snd (fR : Except PyExc J) (server u gm mm : String) :
    (statsStep3 fR server u gm mm).2 = [.stage1, .stage2, .fetch] := by
  unfold statsStep3
  repeat' split
  all_goals rfl

/-- If the stats pipeline called stage 2, the stage-1 result passed the
line-115 check. -/
theorem statsPipeline_stage2 {creds : Dict} {gR mR : Except PyExc (Option Dict)}
    {fR : Except PyExc J} {server u gm mm : String}
    (h2 : ExtCall.stage2 ∈ (statsPipeline creds gR mR fR server u gm mm).2) :
    ∃ g, gR = .ok g ∧ optDictTruthy g = true ∧
      optDictHas g "access_token" = true := by
  unfold statsPipeline at h2
  repeat' split at h2
  all_goals simp_all [statsStep3_snd]

/-- If the stats pipeline called the data fetch, both auth-stage results
passed their checks. -/
theorem statsPipeline_fetch {creds : Dict} {gR mR : Except PyExc (Option Dict)}
    {fR : Except PyExc J} {server u gm mm : String}
    (h2 : ExtCall.fetch ∈ (statsPipeline creds gR mR fR server u gm mm).2) :
    (∃ g, gR = .ok g ∧ optDictTruthy g = true ∧
        optDictHas g "access_token" = true) ∧
    (∃ m, mR = .ok m ∧ optDictTruthy m = true ∧
        optDictHas m "token" = true) := by
  unfold statsPipeline at h2
  repeat' split at h2
  all_goals simp_all [statsStep3_snd]

/-- Step 3 of the personal-show pipeline always has the full trace. -/
theorem showStep3_snd (fR : Except PyExc J) (n : Int) :
    (showStep3 fR n).2 = [.stage1, .stage2, .fetch] := by
  unfold showStep3
  repeat' split
  all_goals rfl

/-- If the personal-show pipeline called stage 2, the stage-1 result passed
the line-317 check (access token and open id present). -/
theorem showPipeline_stage2 {gR mR : Except PyExc (Option Dict)}
    {fR : Except PyExc J} {n : Int}
    (h2 : ExtCall.stage2 ∈ (showPipeline gR mR fR n).2) :
    ∃ g, gR = .ok g ∧ optDictTruthy g = true ∧
      optDictHas g "access_token" = true ∧ optDictHas g "open_id" = true := by
  unfold showPipeline at h2
  repeat' split at h2
  all_goals simp_all [showStep3_snd]

/-- If the personal-show pipeline called the data fetch, both auth-stage
results passed their checks. -/
theorem showPipeline_fetch {gR mR : Except PyExc (Option Dict)}
    {fR : Except PyExc J} {n : Int}
    (h2 : ExtCall.fetch ∈ (showPipeline gR mR fR n).2) :
    (∃ g, gR = .ok g ∧ optDictTruthy g = true ∧
        optDictHas g "access_token" = true ∧ optDictHas g "open_id" = true) ∧
    (∃ m, mR = .ok m ∧ optDictTruthy m = true ∧
        optDictHas m "serverUrl" = true ∧ optDictHas m "token" = true) := by
  unfold showPipeline at h2
  repeat' split at h2
  all_goals simp_all [showStep3_snd]

/-- Handler-level: stage 2 on `/get_player_stats` is only called after
stage 1 succeeded. -/
theorem statsHandler_stage2 {accounts : Registry}
    {gR mR : Except PyExc (Option Dict)} {fR : Except PyExc J}
    {sP uP gmP mmP : Option String}
    (h2 : ExtCall.stage2 ∈ (statsHandler accounts gR mR fR sP uP gmP mmP).2) :
    ∃ g, gR = .ok g ∧ optDictTruthy g = true ∧
      optDictHas g "access_token" = true := by
  simp only [statsHandler] at h2
  repeat' split at h2
  all_goals first
    | exact statsPipeline_stage2 h2
    | simp_all

/-- Handler-level: the fetch on `/get_player_stats` is only called after
both auth stages succeeded. -/
theorem statsHandler_fetch {accounts : Registry}
    {gR mR : Except PyExc (Option Dict)} {fR : Except PyExc J}
    {sP uP gmP mmP : Option String}
    (h2 : ExtCall.fetch ∈ (statsHandler accounts gR mR fR sP uP gmP mmP).2) :
    (∃ g, gR = .ok g ∧ optDictTruthy g = true ∧
        optDictHas g "access_token" = true) ∧
    (∃ m, mR = .ok m ∧ optDictTruthy m = true ∧
        optDictHas m "token" = true) := by
  simp only [statsHandler] at h2
  repeat' split at h2
  all_goals first
    | exact statsPipeline_fetch h2
    | simp_all

/-- Handler-level: stage 2 on `/get_player_personal_show` is only called
after stage 1 succeeded. -/
theorem showHandler_stage2 {accounts : Registry}
    {gR mR : Except PyExc (Option Dict)} {fR : Except PyExc J}
    {sP uP galP csP : Option String}
    (h2 : ExtCall.stage2 ∈ (showHandler accounts gR mR fR sP uP galP csP).2) :
    ∃ g, gR = .ok g ∧ optDictTruthy g = true ∧
      optDictHas g "access_token" = true ∧ optDictHas g "open_id" = true := by
  simp only [showHandler] at h2
  repeat' split at h2
  all_goals first
    | exact showPipeline_stage2 h2
    | simp_all

/-- Handler-level: the fetch on `/get_player_personal_show` is only called
after both auth stages succeeded. -/
theorem showHandler_fetch {accounts : Registry}
    {gR mR : Except PyExc (Option Dict)} {fR : Except PyExc J}
    {sP uP galP csP : Option String}
    (h2 : ExtCall.fetch ∈ (showHandler accounts gR mR fR sP uP galP csP).2) :
    (∃ g, gR = .ok g ∧ optDictTruthy g = true ∧
        optDictHas g "access_token" = true ∧ optDictHas g "open_id" = true) ∧
    (∃ m, mR = .ok m ∧ optDictTruthy m = true ∧
        optDictHas m "serverUrl" = true ∧ optDictHas m "token" = true) := by
  simp only [showHandler] at h2
  repeat' split at h2
  all_goals first
    | exact showPipeline_fetch h2
    | simp_all

/-- Handler-level: stage 2 on `/get_search_account_by_keyword` is only
called after stage 1 succeeded. -/
theorem searchHandler_stage2 {accounts : Registry}
    {gR mR : Except PyExc (Option Dict)} {sR : Except PyExc J}
    {sP kwP : Option String}
    (h2 : ExtCall.stage2 ∈ (searchHandler accounts gR mR sR sP kwP).2) :
    ∃ g, gR = .ok g ∧ optDictTruthy g = true ∧
      optDictHas g "access_token" = true := by
  simp only [searchHandler] at h2
  repeat' split at h2
  all_goals first
    | (rw [searchRun_snd] at h2; exact searchTry_stage2 h2)
    | simp_all

/-- Handler-level: the fetch on `/get_search_account_by_keyword` is only
called after both auth stages succeeded. -/
theorem searchHandler_fetch {accounts : Registry}
    {gR mR : Except PyExc (Option Dict)} {sR : Except PyExc J}
    {sP kwP : Option String}
    (h2 : ExtCall.fetch ∈ (searchHandler accounts gR mR sR sP kwP).2) :
    (∃ g, gR = .ok g ∧ optDictTruthy g = true ∧
        optDictHas g "access_token" = true) ∧
    (∃ m, mR = .ok m ∧ optDictTruthy m = true ∧
        optDictHas m "token" = true) := by
  simp only [searchHandler] at h2
  repeat' split at h2
  all_goals first
    | (rw [searchRun_snd] at h2; exact searchTry_fetch h2)
    | simp_all

/-- Fail-fast on `/get_player_stats`: a failed validation (missing or
non-numeric uid, unknown server, bad gamemode or matchmode) produces an
empty call trace. -/
theorem statsHandler_failfast {accounts : Registry}
    {gR mR : Except PyExc (Option Dict)} {fR : Except PyExc J}
    {sP uP gmP mmP : Option String}
    (h : uP.getD "" = "" ∨ pyIsDigit (uP.getD "") = false ∨
      accounts.lookup (pyUpper (sP.getD "IND")) = none ∨
      ¬(pyLower (gmP.getD "br") = "br" ∨ pyLower (gmP.getD "br") = "cs") ∨
      ¬(pyUpper (mmP.getD "CAREER") = "CAREER" ∨
        pyUpper (mmP.getD "CAREER") = "NORMAL" ∨
        pyUpper (mmP.getD "CAREER") = "RANKED")) :
    (statsHandler accounts gR mR fR sP uP gmP mmP).2 = [] := by
  simp only [statsHandler]
  repeat' split
  all_goals try rfl
  exfalso
  rcases h with h | h | h | h | h <;> simp_all

/-- Fail-fast on `/get_player_personal_show`: a failed validation produces an
empty call trace. -/
theorem showHandler_failfast {accounts : Registry}
    {gR mR : Except PyExc (Option Dict)} {fR : Except PyExc J}
    {sP uP galP csP : Option String}
    (h : uP.getD "" = "" ∨ pyInt? (uP.getD "") = none ∨
      (∃ k, pyInt? (uP.getD "") = some k ∧ k ≤ 0) ∨
      accounts.lookup (pyUpper (sP.getD "IND")) = none ∨
      (match galP with
       | none => true
       | some s =>
           pyLower s = "true" || pyLower s = "1" || pyLower s = "yes" ||
           pyLower s = "false" || pyLower s = "0" || pyLower s = "no") = false ∨
      (∃ s, csP = some s ∧ pyInt? s = none) ∨
      (∃ s k, csP = some s ∧ pyInt? s = some k ∧ k < 0)) :
    (showHandler accounts gR mR fR sP uP galP csP).2 = [] := by
  simp only [showHandler]
  repeat' split
  all_goals try rfl
  all_goals exfalso
  all_goals
    rcases h with h | h | ⟨k, hk, hk2⟩ | h | h | ⟨s, hs, hk⟩ | ⟨s, k, hs, hk, hk2⟩ <;>
      simp_all <;> omega

/-- Fail-fast on `/get_search_account_by_keyword`: a failed validation
produces an empty call trace. -/
theorem searchHandler_failfast {accounts : Registry}
    {gR mR : Except PyExc (Option Dict)} {sR : Except PyExc J}
    {sP kwP : Option String}
    (h : kwP.getD "" = "" ∨ (pyStrip (kwP.getD "")).length < 3 ∨
      accounts.lookup (pyUpper (sP.getD "IND")) = none) :
    (searchHandler accounts gR mR sR sP kwP).2 = [] := by
  simp only [searchHandler]
  repeat' split
  all_goals try rfl
  exfalso
  rcases h with h | h | h <;> simp_all

/-- C6: fail-fast and short-circuiting.  On each endpoint: a failed
validation (region check included) produces an empty external-call trace;
stage 2 appears in the trace only if the stage-1 result passed the handler's
success check; and the data fetch appears in the trace only if both stage
results passed their checks. -/
theorem C6 {accounts : Registry}
    {gR mR : Except PyExc (Option Dict)} {fR : Except PyExc J}
    {sP₁ uP₁ gmP mmP sP₂ uP₂ galP csP sP₃ kwP : Option String} :
    ((uP₁.getD "" = "" ∨ pyIsDigit (uP₁.getD "") = false ∨
      accounts.lookup (pyUpper (sP₁.getD "IND")) = none ∨
      ¬(pyLower (gmP.getD "br") = "br" ∨ pyLower (gmP.getD "br") = "cs") ∨
      ¬(pyUpper (mmP.getD "CAREER") = "CAREER" ∨
        pyUpper (mmP.getD "CAREER") = "NORMAL" ∨
        pyUpper (mmP.getD "CAREER") = "RANKED")) →
      (statsHandler accounts gR mR fR sP₁ uP₁ gmP mmP).2 = []) ∧
    ((uP₂.getD "" = "" ∨ pyInt? (uP₂.getD "") = none ∨
      (∃ k, pyInt? (uP₂.getD "") = some k ∧ k ≤ 0) ∨
      accounts.lookup (pyUpper (sP₂.getD "IND")) = none ∨
      (match galP with
       | none => true
       | some s =>
           pyLower s = "true" || pyLower s = "1" || pyLower s = "yes" ||
           pyLower s = "false" || pyLower s = "0" || pyLower s = "no") = false ∨
      (∃ s, csP = some s ∧ pyInt? s = none) ∨
      (∃ s k, csP = some s ∧ pyInt? s = some k ∧ k < 0)) →
      (showHandler accounts gR mR fR sP₂ uP₂ galP csP).2 = []) ∧
    ((kwP.getD "" = "" ∨ (pyStrip (kwP.getD "")).length < 3 ∨
      accounts.lookup (pyUpper (sP₃.getD "IND")) = none) →
      (searchHandler accounts gR mR fR sP₃ kwP).2 = []) ∧
    (ExtCall.stage2 ∈ (statsHandler accounts gR mR fR sP₁ uP₁ gmP mmP).2 →
      ∃ g, gR = .ok g ∧ optDictTruthy g = true ∧
        optDictHas g "access_token" = true) ∧
    (ExtCall.fetch ∈ (statsHandler accounts gR mR fR sP₁ uP₁ gmP mmP).2 →
      (∃ g, gR = .ok g ∧ optDictTruthy g = true ∧
          optDictHas g "access_token" = true) ∧
      (∃ m, mR = .ok m ∧ optDictTruthy m = true ∧
          optDictHas m "token" = true)) ∧
    (ExtCall.stage2 ∈ (showHandler accounts gR mR fR sP₂ uP₂ galP csP).2 →
      ∃ g, gR = .ok g ∧ optDictTruthy g = true ∧
        optDictHas g "access_token" = true ∧ optDictHas g "open_id" = true) ∧
    (ExtCall.fetch ∈ (showHandler accounts gR mR fR sP₂ uP₂ galP csP).2 →
      (∃ g, gR = .ok g ∧ optDictTruthy g = true ∧
          optDictHas g "access_token" = true ∧
          optDictHas g "open_id" = true) ∧
      (∃ m, mR = .ok m ∧ optDictTruthy m = true ∧
          optDictHas m "serverUrl" = true ∧ optDictHas m "token" = true)) ∧
    (ExtCall.stage2 ∈ (searchHandler accounts gR mR fR sP₃ kwP).2 →
      ∃ g, gR = .ok g ∧ optDictTruthy g = true ∧
        optDictHas g "access_token" = true) ∧
    (ExtCall.fetch ∈ (searchHandler accounts gR mR fR sP₃ kwP).2 →
      (∃ g, gR = .ok g ∧ optDictTruthy g = true ∧
          optDictHas g "access_token" = true) ∧
      (∃ m, mR = .ok m ∧ optDictTruthy m = true ∧
          optDictHas m "token" = true)) :=
  ⟨statsHandler_failfast, showHandler_failfast, searchHandler_failfast,
   statsHandler_stage2, statsHandler_fetch, showHandler_stage2,
   showHandler_fetch, searchHandler_stage2, searchHandler_fetch⟩

/-- C6 witness: each component of C6 applied at a concrete request. -/
theorem C6_witness :
    (statsHandler regW gOkW mOkW (.ok J.null)
        none (some "12a") none none).2 = [] ∧
    (showHandler regW gOkW mOkW (.ok J.null)
        none (some "abc") none none).2 = [] ∧
    (searchHandler regW gOkW mOkW (.ok J.null) none (some "ab")).2 = [] ∧
    (∃ g, gOkW = .ok g ∧ optDictTruthy g = true ∧
        optDictHas g "access_token" = true) ∧
    ((∃ g, gOkW = .ok g ∧ optDictTruthy g = true ∧
        optDictHas g "access_token" = true) ∧
      (∃ m, mOkW = .ok m ∧ optDictTruthy m = true ∧
        optDictHas m "token" = true)) ∧
    (∃ g, gOkW = .ok g ∧ optDictTruthy g = true ∧
        optDictHas g "access_token" = true ∧
        optDictHas g "open_id" = true) ∧
    ((∃ g, gOkW = .ok g ∧ optDictTruthy g = true ∧
        optDictHas g "access_token" = true ∧
        optDictHas g "open_id" = true) ∧
      (∃ m, mOkW = .ok m ∧ optDictTruthy m = true ∧
        optDictHas m "serverUrl" = true ∧ optDictHas m "token" = true)) ∧
    (∃ g, gOkW = .ok g ∧ optDictTruthy g = true ∧
        optDictHas g "access_token" = true) ∧
    ((∃ g, gOkW = .ok g ∧ optDictTruthy g = true ∧
        optDictHas g "access_token" = true) ∧
      (∃ m, mOkW = .ok m ∧ optDictTruthy m = true ∧
        optDictHas m "token" = true)) :=
  ⟨(@C6 regW gOkW mOkW (.ok J.null) none (some "12a") none none
      none none none none none none).1 (Or.inr (Or.inl (by decide))),
   (@C6 regW gOkW mOkW (.ok J.null) none none none none
      none (some "abc") none none none none).2.1 (Or.inr (Or.inl (by decide))),
   (@C6 regW gOkW mOkW (.ok J.null) none none none none
      none none none none none (some "ab")).2.2.1 (Or.inr (Or.inl (by decide))),
   (@C6 regW gOkW mOkW (.ok J.null) none (some "123") none none
      none none none none none none).2.2.2.1 (by decide),
   (@C6 regW gOkW mOkW (.ok J.null) none (some "123") none none
      none none none none none none).2.2.2.2.1 (by decide),
   (@C6 regW gOkW mOkW (.ok J.null) none none none none
      none (some "123") none none none none).2.2.2.2.2.1 (by decide),
   (@C6 regW gOkW mOkW (.ok J.null) none none none none
      none (some "123") none none none none).2.2.2.2.2.2.1 (by decide),
   (@C6 regW gOkW mOkW (.ok J.null) none none none none
      none none none none none (some "abc")).2.2.2.2.2.2.2.1 (by decide),
   (@C6 regW gOkW mOkW (.ok J.null) none none none none
      none none none none none (some "abc")).2.2.2.2.2.2.2.2 (by decide)⟩

/-! ### C10: the unbound ProtobufError and APIError clauses -/

/-- C10: `ProtobufError` and `APIError` are unbound names in
`get_player_stat`, so (1) a data-fetch failure that is neither a
`ValueError` nor a `ConnectionError` makes the clause evaluation raise
`NameError`, which escapes to the outer handler and yields the generic 500
internal-error body, and (2) the "Data processing error" and "External API
error" bodies are never produced on any input. -/
theorem C10 {accounts : Registry}
    {garenaRes majorRes : Except PyExc (Option Dict)}
    {g m creds : Dict} {ja jo jt js cu cp : J}
    {sP uP gmP mmP : Option String} {u : String} {e : PyExc}
    (hu : uP = some u) (hud : pyIsDigit u = true)
    (hs : accounts.lookup (pyUpper (sP.getD "IND")) = some creds)
    (hc : creds.lookup "uid" = some cu)
    (hcp : creds.lookup "password" = some cp)
    (hgm : pyLower (gmP.getD "br") = "br" ∨ pyLower (gmP.getD "br") = "cs")
    (hmm : pyUpper (mmP.getD "CAREER") = "CAREER" ∨
      pyUpper (mmP.getD "CAREER") = "NORMAL" ∨
      pyUpper (mmP.getD "CAREER") = "RANKED")
    (hg : garenaRes = .ok (some g))
    (hat : g.lookup "access_token" = some ja)
    (hoid : g.lookup "open_id" = some jo)
    (hm : majorRes = .ok (some m))
    (htk : m.lookup "token" = some jt)
    (hsu : m.lookup "serverUrl" = some js)
    (he1 : clsMatches ClsExpr.cValueError e = false)
    (he2 : clsMatches ClsExpr.cConnectionError e = false) :
    (statsHandler accounts garenaRes majorRes (.error e) sP uP gmP mmP).1 =
      statsInternal500 ∧
    (∀ (ac : Registry) (gR mR : Except PyExc (Option Dict))
       (fR : Except PyExc J) (sQ uQ gmQ mmQ : Option String),
       errField (statsHandler ac gR mR fR sQ uQ gmQ mmQ).1.body ≠
         some (J.jstr "Data processing error") ∧
       errField (statsHandler ac gR mR fR sQ uQ gmQ mmQ).1.body ≠
         some (J.jstr "External API error")) := by
  subst hg hm
  constructor
  · rcases e with s | s | s | s | ⟨s, t⟩
    · exact absurd he1 (by simp [clsMatches])
    · exact absurd he2 (by simp [clsMatches])
    all_goals
      rw [statsHandler_valid hu hud hs hgm hmm,
        statsPipeline_auth hc hcp rfl hat hoid rfl htk hsu]
    all_goals simp [statsStep3, statsStep3Chain_eval]
  · intro ac gR mR fR sQ uQ gmQ mmQ
    constructor <;>
    · simp only [statsHandler, statsPipeline, statsStep3, statsStep3Chain_eval]
      repeat' split
      all_goals
        first
        | (simp [errField, statsErr, statsSuccess, statsInternal500,
             List.lookup]; done)
        | (rename_i r2 h2
           split at h2 <;> injection h2 <;> rename_i h3 <;> subst h3 <;>
             simp [errField, statsErr, List.lookup])

/-- C10 witness: a `KeyError` raised by the data fetch lands on the generic
500 body, and the dead clauses' bodies do not appear at a concrete input. -/
theorem C10_witness :
    (statsHandler regW gOkW mOkW (.error (.keyError "oops"))
        none (some "123") none none).1 = statsInternal500 ∧
    (errField (statsHandler regW gOkW mOkW (.ok J.null)
        none (some "123") none none).1.body ≠
      some (J.jstr "Data processing error") ∧
     errField (statsHandler regW gOkW mOkW (.ok J.null)
        none (some "123") none none).1.body ≠
      some (J.jstr "External API error")) :=
  ⟨(@C10 regW gOkW mOkW
      [("access_token", J.jstr "tok"), ("open_id", J.jstr "oid")]
      [("token", J.jstr "sess"), ("serverUrl", J.jstr "https://srv")]
      [("uid", J.jstr "acc-uid"), ("password", J.jstr "acc-pass")]
      (J.jstr "tok") (J.jstr "oid") (J.jstr "sess") (J.jstr "https://srv")
      (J.jstr "acc-uid") (J.jstr "acc-pass")
      none (some "123") none none "123" (PyExc.keyError "oops")
      rfl (by decide) rfl rfl rfl (Or.inl rfl) (Or.inl rfl)
      rfl rfl rfl rfl rfl rfl (by decide) (by decide)).1,
   (@C10 regW gOkW mOkW
      [("access_token", J.jstr "tok"), ("open_id", J.jstr "oid")]
      [("token", J.jstr "sess"), ("serverUrl", J.jstr "https://srv")]
      [("uid", J.jstr "acc-uid"), ("password", J.jstr "acc-pass")]
      (J.jstr "tok") (J.jstr "oid") (J.jstr "sess") (J.jstr "https://srv")
      (J.jstr "acc-uid") (J.jstr "acc-pass")
      none (some "123") none none "123" (PyExc.keyError "oops")
      rfl (by decide) rfl rfl rfl (Or.inl rfl) (Or.inl rfl)
      rfl rfl rfl rfl rfl rfl (by decide) (by decide)).2
     regW gOkW mOkW (.ok J.null) none (some "123") none none⟩
